import Mathlib

/-!
Verification development for the KTRLite data-preparation pipeline
(`orbit/template/ktrlite.py`): a shallow embedding of the configuration
normalization, knot placement, kernel-matrix assembly and response
validation, together with theorems about the embedded definitions.

Numbers: Python ints are embedded as `ℕ`/`ℤ`, floats as `ℚ` (the pipeline
performs only ring operations, divisions and comparisons on them, all exact
on the inputs the claims quantify over).  Dates are embedded as rational
timestamps, a calendar frequency as the (positive) length of one calendar
unit in those timestamps.  Fallible code returns `Except OrbitError`.
-/

namespace KTRLite

/-- The exception kinds the pipeline can raise.  `illegalArgument` and
`modelException` embed orbit's `IllegalArgument` / `ModelException`;
`indexError`, `typeError`, `valueError`, `zeroDivisionError` embed the
corresponding Python built-in exceptions reachable from this code. -/
inductive OrbitError where
  | illegalArgument (msg : String)
  | modelException (msg : String)
  | indexError
  | typeError
  | valueError
  | zeroDivisionError
deriving DecidableEq, Repr

deriving instance DecidableEq for Except

/-- Python's built-in `round` (also `np.round`) on an exact rational value:
round half to even ("banker's rounding"). -/
def roundHalfEven (q : ℚ) : ℤ :=
  if q - ⌊q⌋ < 1/2 then ⌊q⌋
  else if 1/2 < q - ⌊q⌋ then ⌊q⌋ + 1
  else if ⌊q⌋ % 2 = 0 then ⌊q⌋ else ⌊q⌋ + 1

/-- `math.ceil(a / b)` for natural `a`, positive natural `b`. -/
def ceilDiv (a b : ℕ) : ℕ := (a + b - 1) / b

/-- `round(knots_distance / 2)` from `_set_knots_tp`: for an integer distance
`d`, the exact value `d/2` rounded half to even. -/
def knotsIdxStart (d : ℕ) : ℕ :=
  if d % 2 = 0 then d / 2
  else if (d / 2) % 2 = 0 then d / 2 else d / 2 + 1

/-- `np.arange(start, stop, step)` for naturals with positive step:
`start, start + step, ...` while `< stop`. -/
def arangeUp (start stop step : ℕ) : List ℕ :=
  (List.range (ceilDiv (stop - start) step)).map (fun k => start + k * step)

/-- `np.arange(hi, 0, -step)` for naturals with positive step:
`hi, hi - step, ...` while `> 0`. -/
def arangeDownPos (hi step : ℕ) : List ℕ :=
  (List.range (ceilDiv hi step)).map (fun k => hi - k * step)

/-- `KTRLiteModel._set_knots_tp(knots_distance, cutoff, knot_location)`.
`mid_point`: `np.arange(round(knots_distance/2), cutoff, knots_distance)`;
`end_point`: `np.sort(np.arange(cutoff - 1, 0, -knots_distance))` (the arange
output is strictly decreasing, so sorting it ascending is reversal);
any other location raises `ModelException`.  A zero distance makes
`np.arange` raise `ValueError` (zero step). -/
def set_knots_tp (knots_distance cutoff : ℕ) (knot_location : String) :
    Except OrbitError (List ℕ) :=
  if knot_location = "mid_point" then
    if knots_distance = 0 then .error .valueError
    else .ok (arangeUp (knotsIdxStart knots_distance) cutoff knots_distance)
  else if knot_location = "end_point" then
    if knots_distance = 0 then .error .valueError
    else .ok ((arangeDownPos (cutoff - 1) knots_distance).reverse)
  else .error (.modelException "Invalid knots segment option.")

/-! ### Arithmetic facts about the knot placer -/

theorem knotsIdxStart_bounds (d : ℕ) (hd : 0 < d) :
    d - 1 ≤ 2 * knotsIdxStart d ∧ 2 * knotsIdxStart d ≤ d + 1 := by
  unfold knotsIdxStart
  rcases Nat.even_or_odd d with h | h
  · have h2 : d % 2 = 0 := Nat.even_iff.mp h
    simp only [h2, if_true]
    omega
  · have h2 : d % 2 = 1 := Nat.odd_iff.mp h
    have : ¬ (d % 2 = 0) := by omega
    simp only [this, if_false]
    split <;> omega

theorem ceilDiv_lt_iff (a b k : ℕ) (hb : 0 < b) :
    k < ceilDiv a b ↔ k * b < a := by
  unfold ceilDiv
  rw [show (k < (a + b - 1) / b) ↔ (k + 1 ≤ (a + b - 1) / b) from Iff.rfl,
    Nat.le_div_iff_mul_le hb, Nat.add_mul, Nat.one_mul]
  omega

theorem ceilDiv_mono (a a' b : ℕ) (h : a ≤ a') : ceilDiv a b ≤ ceilDiv a' b := by
  unfold ceilDiv
  exact Nat.div_le_div_right (by omega)

theorem ceilDiv_add_self (a b : ℕ) (hb : 0 < b) :
    ceilDiv (a + b) b = ceilDiv a b + 1 := by
  unfold ceilDiv
  rw [show a + b + b - 1 = (a + b - 1) + b by omega, Nat.add_div_right _ hb]

theorem arangeUp_length (start stop step : ℕ) :
    (arangeUp start stop step).length = ceilDiv (stop - start) step := by
  simp [arangeUp]

theorem arangeUp_mem (start stop step : ℕ) (hstep : 0 < step) (x : ℕ) :
    x ∈ arangeUp start stop step ↔ (∃ k, x = start + k * step) ∧ x < stop := by
  unfold arangeUp
  simp only [List.mem_map, List.mem_range]
  constructor
  · rintro ⟨k, hk, rfl⟩
    rw [ceilDiv_lt_iff _ _ _ hstep] at hk
    exact ⟨⟨k, rfl⟩, by omega⟩
  · rintro ⟨⟨k, rfl⟩, hlt⟩
    exact ⟨k, by rw [ceilDiv_lt_iff _ _ _ hstep]; omega, rfl⟩

theorem arangeUp_pairwise (start stop step : ℕ) (hstep : 0 < step) :
    (arangeUp start stop step).Pairwise (· < ·) := by
  unfold arangeUp
  rw [List.pairwise_map]
  exact (List.pairwise_lt_range _).imp (fun h => by nlinarith)

theorem arangeDownPos_mem (hi step : ℕ) (hstep : 0 < step) (x : ℕ) :
    x ∈ arangeDownPos hi step ↔ (∃ k, x + k * step = hi) ∧ 0 < x := by
  unfold arangeDownPos
  simp only [List.mem_map, List.mem_range]
  constructor
  · rintro ⟨k, hk, rfl⟩
    rw [ceilDiv_lt_iff _ _ _ hstep] at hk
    exact ⟨⟨k, by omega⟩, by omega⟩
  · rintro ⟨⟨k, hk⟩, hpos⟩
    exact ⟨k, by rw [ceilDiv_lt_iff _ _ _ hstep]; omega, by omega⟩

theorem arangeDownPos_pairwise (hi step : ℕ) (hstep : 0 < step) :
    (arangeDownPos hi step).Pairwise (· > ·) := by
  unfold arangeDownPos
  rw [List.pairwise_iff_getElem]
  intro i j hilen hjlen hij
  simp only [List.length_map, List.length_range] at hilen hjlen
  simp only [List.getElem_map, List.getElem_range]
  have hj : j * step < hi := (ceilDiv_lt_iff _ _ _ hstep).mp hjlen
  have hij' : i * step < j * step := (Nat.mul_lt_mul_right hstep).mpr hij
  omega

/-- C2: for every positive knot distance and positive cutoff, `_set_knots_tp`
with location `mid_point` returns the arithmetic progression starting at
`round(knot_distance / 2)` with step `knot_distance` containing exactly the
terms strictly below `cutoff`; the sequence is strictly increasing, bounded
within `[0, cutoff)`, and its length equals `ceil(cutoff / knot_distance)`
within plus-or-minus one. -/
theorem claim_C2_midpoint_knots (d cutoff : ℕ) (hd : 0 < d) (hc : 0 < cutoff) :
    ∃ ks : List ℕ, set_knots_tp d cutoff "mid_point" = .ok ks ∧
      (∀ x, x ∈ ks ↔ (∃ k, x = knotsIdxStart d + k * d) ∧ x < cutoff) ∧
      ks.Pairwise (· < ·) ∧ (∀ x ∈ ks, x < cutoff) ∧
      ks.length ≤ ceilDiv cutoff d + 1 ∧ ceilDiv cutoff d ≤ ks.length + 1 := by
  refine ⟨arangeUp (knotsIdxStart d) cutoff d, ?_, ?_, ?_, ?_, ?_, ?_⟩
  · simp [set_knots_tp, Nat.pos_iff_ne_zero.mp hd]
  · exact arangeUp_mem _ _ _ hd
  · exact arangeUp_pairwise _ _ _ hd
  · intro x hx
    exact ((arangeUp_mem _ _ _ hd x).mp hx).2
  · rw [arangeUp_length]
    have := ceilDiv_mono (cutoff - knotsIdxStart d) cutoff d (by omega)
    omega
  · rw [arangeUp_length]
    have hb := knotsIdxStart_bounds d hd
    rcases le_or_lt (knotsIdxStart d) cutoff with hle | hgt
    · have h1 : cutoff ≤ (cutoff - knotsIdxStart d) + d := by omega
      calc ceilDiv cutoff d ≤ ceilDiv ((cutoff - knotsIdxStart d) + d) d :=
            ceilDiv_mono _ _ _ h1
        _ = ceilDiv (cutoff - knotsIdxStart d) d + 1 := ceilDiv_add_self _ _ hd
    · have h0 : cutoff - knotsIdxStart d = 0 := by omega
      have h1 : ceilDiv cutoff d < 2 := by
        unfold ceilDiv
        rw [Nat.div_lt_iff_lt_mul hd]
        omega
      omega

theorem claim_C2_witness : ∃ ks : List ℕ, set_knots_tp 3 10 "mid_point" = .ok ks ∧
    (∀ x, x ∈ ks ↔ (∃ k, x = knotsIdxStart 3 + k * 3) ∧ x < 10) ∧
    ks.Pairwise (· < ·) ∧ (∀ x ∈ ks, x < 10) ∧
    ks.length ≤ ceilDiv 10 3 + 1 ∧ ceilDiv 10 3 ≤ ks.length + 1 :=
  claim_C2_midpoint_knots 3 10 (by decide) (by decide)

/-- C3: for every positive knot distance and positive cutoff, `_set_knots_tp`
with location `end_point` returns exactly the indices obtained by counting
backward from `cutoff - 1` in steps of `knot_distance` while the index stays
positive, sorted ascending; every other location value raises the
configuration error "invalid knot location" (`ModelException`). -/
theorem claim_C3_endpoint_knots (d cutoff : ℕ) (hd : 0 < d) (_hc : 0 < cutoff) :
    (∃ ks : List ℕ, set_knots_tp d cutoff "end_point" = .ok ks ∧
      (∀ x, x ∈ ks ↔ (∃ k, x + k * d = cutoff - 1) ∧ 0 < x) ∧
      ks.Pairwise (· < ·)) ∧
    ∀ loc : String, loc ≠ "mid_point" → loc ≠ "end_point" →
      set_knots_tp d cutoff loc =
        .error (.modelException "Invalid knots segment option.") := by
  constructor
  · refine ⟨(arangeDownPos (cutoff - 1) d).reverse, ?_, ?_, ?_⟩
    · simp [set_knots_tp, Nat.pos_iff_ne_zero.mp hd]
    · intro x
      rw [List.mem_reverse]
      exact arangeDownPos_mem _ _ hd x
    · rw [List.pairwise_reverse]
      exact arangeDownPos_pairwise _ _ hd
  · intro loc h1 h2
    simp [set_knots_tp, h1, h2]

theorem claim_C3_witness : (∃ ks : List ℕ, set_knots_tp 2 7 "end_point" = .ok ks ∧
    (∀ x, x ∈ ks ↔ (∃ k, x + k * 2 = 7 - 1) ∧ 0 < x) ∧
    ks.Pairwise (· < ·)) ∧
    set_knots_tp 2 7 "banana" =
      .error (.modelException "Invalid knots segment option.") :=
  ⟨(claim_C3_endpoint_knots 2 7 (by decide) (by decide)).1,
   (claim_C3_endpoint_knots 2 7 (by decide) (by decide)).2 "banana"
     (by decide) (by decide)⟩

/-! ### Configuration normalization (`_set_default_args`,
`_set_seasonality_attributes`) -/

/-- A constructor argument that may be `None`, a bare number, or a list. -/
inductive NumListInput (α : Type) where
  | none
  | scalar (x : α)
  | ofList (l : List α)
deriving DecidableEq, Repr

/-- A prior-scale argument: a bare number or a list (the constructor defaults
are numbers, so absence does not occur). -/
inductive ScaleInput where
  | scalar (x : ℚ)
  | ofList (l : List ℚ)
deriving DecidableEq, Repr

/-- The seasonality list after the first block of `_set_default_args`:
`None` becomes the empty list, a scalar is wrapped into a one-element list,
a list is kept as supplied. -/
def normalizeSeas (seasonalityIn : NumListInput ℚ) : List ℚ :=
  match seasonalityIn with
  | .none => []
  | .scalar x => [x]
  | .ofList l => l

/-- The fourier-order list after the first two blocks of `_set_default_args`:
a `None` seasonality also resets the order input to the empty list; otherwise
an absent order defaults to `[2] * len(seasonality)` when the seasonality
list is non-empty, and a scalar order is wrapped into a one-element list.
When the seasonality list is empty and the order input is still `None`, the
subsequent length comparison evaluates `len(None)` and raises `TypeError`. -/
def normalizeOrd (seasonalityIn : NumListInput ℚ) (fsOrderIn : NumListInput ℤ) :
    Except OrbitError (List ℤ) :=
  let seas := normalizeSeas seasonalityIn
  let fs1 : NumListInput ℤ :=
    match seasonalityIn with
    | .none => .ofList []
    | _ => fsOrderIn
  match fs1 with
  | .none =>
      if seas.length > 0 then .ok (List.replicate seas.length 2)
      else .error .typeError
  | .scalar x => .ok [x]
  | .ofList l => .ok l

/-- Scalar prior scales are broadcast to one copy per seasonality
(`[scale] * len(self._seasonality)`); a list is used as supplied, with no
length check. -/
def broadcastScale (scaleIn : ScaleInput) (n : ℕ) : List ℚ :=
  match scaleIn with
  | .scalar x => List.replicate n x
  | .ofList l => l

/-- The four canonical per-seasonality lists produced by `_set_default_args`. -/
structure SeasonalityConfig where
  _seasonality : List ℚ
  _seasonality_fs_order : List ℤ
  _seasonal_initial_knot_scale : List ℚ
  _seasonal_knot_scale : List ℚ
deriving DecidableEq, Repr

/-- `KTRLiteModel._set_default_args`: normalize the seasonality and order
inputs, fail with `IllegalArgument` when the final lists have different
lengths or when some `2 * order[k] > seasonality[k] - 1`, then broadcast the
prior scales. -/
def set_default_args (seasonalityIn : NumListInput ℚ) (fsOrderIn : NumListInput ℤ)
    (initScaleIn knotScaleIn : ScaleInput) : Except OrbitError SeasonalityConfig :=
  match normalizeOrd seasonalityIn fsOrderIn with
  | .error e => .error e
  | .ok ord =>
    if ord.length ≠ (normalizeSeas seasonalityIn).length then
      .error (.illegalArgument "length of seasonality and fs_order not matching")
    else if ∃ p ∈ ord.zip (normalizeSeas seasonalityIn),
        ((2 * p.1 : ℤ) : ℚ) > p.2 - 1 then
      .error (.illegalArgument "reduce seasonality_fs_order to avoid over-fitting")
    else
      .ok ⟨normalizeSeas seasonalityIn, ord,
           broadcastScale initScaleIn (normalizeSeas seasonalityIn).length,
           broadcastScale knotScaleIn (normalizeSeas seasonalityIn).length⟩

/-- Fourier column names for one seasonality, as built in
`_set_seasonality_attributes`: `seas{s}_fs_cos{i}`, `seas{s}_fs_sin{i}`
for harmonics `i = 1..order`. -/
def fsColNames (s : ℚ) (order : ℕ) : List String :=
  (List.range order).flatMap (fun i =>
    ["seas" ++ toString s ++ "_fs_cos" ++ toString (i + 1),
     "seas" ++ toString s ++ "_fs_sin" ++ toString (i + 1)])

/-- One iteration of the `_set_seasonality_attributes` loop: the values read
at position `idx` of the four configuration lists (the fourier columns, and
the per-regressor initial-knot and drift scales, `2 * order` copies each).
Lists shorter than the seasonality list make the positional access raise
`IndexError`; a negative order makes Python's `[x] * order` empty. -/
def seasGroup (cfg : SeasonalityConfig) (idx : ℕ) :
    Except OrbitError (List String × List ℚ × List ℚ) :=
  match cfg._seasonality.get? idx, cfg._seasonality_fs_order.get? idx,
        cfg._seasonal_initial_knot_scale.get? idx, cfg._seasonal_knot_scale.get? idx with
  | some s, some o, some isc, some ksc =>
      .ok (fsColNames s o.toNat, List.replicate (o.toNat * 2) isc,
           List.replicate (o.toNat * 2) ksc)
  | _, _, _, _ => .error .indexError

/-- The regressor bookkeeping produced by `_set_seasonality_attributes`. -/
structure SeasAttrs where
  regressor_col_gp : List (List String)
  regressor_col : List String
  coefficients_initial_knot_scale : List ℚ
  coefficients_knot_scale : List ℚ
  num_of_regressors : ℕ
deriving DecidableEq, Repr

/-- Map a fallible function over a list, stopping at the first error (the
Python loop's exception propagation). -/
def exceptMapList {α β : Type} (f : α → Except OrbitError β) :
    List α → Except OrbitError (List β)
  | [] => .ok []
  | a :: l =>
    match f a with
    | .error e => .error e
    | .ok b =>
      match exceptMapList f l with
      | .error e => .error e
      | .ok bs => .ok (b :: bs)

theorem exceptMapList_ok_of_forall {α β : Type} (f : α → Except OrbitError β)
    (l : List α) (h : ∀ a ∈ l, ∃ b, f a = .ok b) :
    ∃ bs, exceptMapList f l = .ok bs := by
  induction l with
  | nil => exact ⟨[], rfl⟩
  | cons a l ih =>
    obtain ⟨b, hb⟩ := h a (List.mem_cons_self a l)
    obtain ⟨bs, hbs⟩ := ih (fun a' ha' => h a' (List.mem_cons_of_mem _ ha'))
    exact ⟨b :: bs, by rw [exceptMapList, hb, hbs]⟩

/-- `KTRLiteModel._set_seasonality_attributes`: accumulate the per-seasonality
column groups and flat scale lists over `enumerate(self._seasonality)`. -/
def set_seasonality_attributes (cfg : SeasonalityConfig) :
    Except OrbitError SeasAttrs :=
  match exceptMapList (seasGroup cfg) (List.range cfg._seasonality.length) with
  | .error e => .error e
  | .ok groups =>
      .ok ⟨groups.map (·.1),
           (groups.map (·.1)).flatten,
           (groups.map (fun g => g.2.1)).flatten,
           (groups.map (fun g => g.2.2)).flatten,
           (groups.map (·.1)).flatten.length⟩

/-! ### Response validation (`_set_validate_ktr_params`) -/

/-- `np.nanmean`: the mean of the non-missing entries (with `ℚ`'s `x / 0 = 0`
as the junk value where numpy would warn and return NaN on an all-missing
input). -/
def nanmean (l : List (Option ℚ)) : ℚ :=
  ((l.filterMap id).foldl (· + ·) 0) / ((l.filterMap id).length : ℚ)

/-- Python list slicing `l[:m]` for an integer bound: a negative bound counts
from the end. -/
def pySlice {α : Type} (l : List α) (m : ℤ) : List α :=
  if 0 ≤ m then l.take m.toNat else l.take (l.length - m.natAbs)

/-- `np.max` over a list (the validator only calls it on a non-empty list). -/
def listMax : List ℚ → ℚ
  | [] => 0
  | x :: xs => xs.foldl max x

/-- Indices of the non-missing entries
(`np.where(~np.isnan(response))[0]`). -/
def validIndices (l : List (Option ℚ)) : List ℕ :=
  (l.enum.filter (fun p => p.2.isSome)).map (·.1)

/-- The attributes `_set_validate_ktr_params` stores. -/
structure ValidateOut where
  response_offset : ℚ
  is_valid_response : List Bool
  which_valid_response : List ℕ
  num_of_valid_response : ℕ
deriving DecidableEq, Repr

/-- `KTRLiteModel._set_validate_ktr_params`: with seasonality configured,
let `m = round(max(seasonality))` and raise `ModelException` when
`num_of_observations < m`, else set the offset to `np.nanmean(response[:m])`;
without seasonality the offset is `np.nanmean(response)`; then store the
valid-response mask, index list and count. -/
def set_validate_ktr_params (seas : List ℚ) (response : List (Option ℚ))
    (num_of_observations : ℕ) : Except OrbitError ValidateOut :=
  if seas.isEmpty then
    .ok ⟨nanmean response, response.map Option.isSome, validIndices response,
         (validIndices response).length⟩
  else if (num_of_observations : ℤ) < roundHalfEven (listMax seas) then
    .error (.modelException ("Number of observations "
      ++ toString num_of_observations
      ++ " is less than max seasonality "
      ++ toString (roundHalfEven (listMax seas))))
  else
    .ok ⟨nanmean (pySlice response (roundHalfEven (listMax seas))),
         response.map Option.isSome, validIndices response,
         (validIndices response).length⟩

theorem roundHalfEven_intCast (z : ℤ) : roundHalfEven (z : ℚ) = z := by
  unfold roundHalfEven
  rw [Int.floor_intCast]
  norm_num

/-! ### The model object -/

/-- A dense numeric matrix with an explicit shape (row-major data). -/
structure MatrixQ where
  rows : ℕ
  cols : ℕ
  data : List (List ℚ)
deriving DecidableEq, Repr

/-- `np.zeros((r, c))`. -/
def zerosM (r c : ℕ) : MatrixQ := ⟨r, c, List.replicate r (List.replicate c 0)⟩

/-- The instance attributes of `KTRLiteModel` that this development tracks.
Dates are rational timestamps; `date_freq` is the (positive) length of one
calendar unit in those timestamps.  Attributes that Python initializes to
`None` and fills during fit are `Option`s.  `_level_knot_dates` and
`date_freq` are the two configuration-like attributes the fit call mutates. -/
structure ModelState where
  span_level : ℚ
  level_knot_scale : ℚ
  level_knot_dates : Option (List ℚ)
  level_knot_length : Option ℕ
  coefficients_knot_length : Option ℕ
  knot_location : String
  span_coefficients : ℚ
  date_freq : Option ℚ
  _level_knot_dates : Option (List ℚ)
  _seasonality : List ℚ
  _seasonality_fs_order : List ℤ
  _seasonal_initial_knot_scale : List ℚ
  _seasonal_knot_scale : List ℚ
  regressor_col_gp : List (List String)
  regressor_col : List String
  coefficients_initial_knot_scale : List ℚ
  coefficients_knot_scale : List ℚ
  num_of_regressors : ℕ
  response_offset : ℚ
  is_valid_response : Option (List Bool)
  which_valid_response : Option (List ℕ)
  num_of_valid_response : ℕ
  _cutoff : Option ℕ
  num_knots_level : Option ℕ
  knots_tp_level : Option (List ℚ)
  _knots_idx_level : Option (List ℕ)
  kernel_level : Option MatrixQ
  num_knots_coefficients : Option ℕ
  knots_tp_coefficients : Option (List ℚ)
  _knots_idx_coef : Option (List ℕ)
  _coef_knot_dates : Option (List ℚ)
  regressor_matrix : Option MatrixQ
  kernel_coefficients : Option MatrixQ
deriving DecidableEq, Repr

/-- `KTRLiteModel.__init__`: store the configuration, run `_set_default_args`
and `_set_seasonality_attributes`, and initialize the per-fit attributes
(`_level_knot_dates` starts as the supplied `level_knot_dates`). -/
def initModel (seasonalityIn : NumListInput ℚ) (fsOrderIn : NumListInput ℤ)
    (initScaleIn knotScaleIn : ScaleInput)
    (span_level span_coefficients level_knot_scale : ℚ)
    (level_knot_dates : Option (List ℚ))
    (level_knot_length coefficients_knot_length : Option ℕ)
    (knot_location : String) (date_freq : Option ℚ) :
    Except OrbitError ModelState :=
  match set_default_args seasonalityIn fsOrderIn initScaleIn knotScaleIn with
  | .error e => .error e
  | .ok cfg =>
    match set_seasonality_attributes cfg with
    | .error e => .error e
    | .ok attrs =>
      .ok { span_level := span_level
            level_knot_scale := level_knot_scale
            level_knot_dates := level_knot_dates
            level_knot_length := level_knot_length
            coefficients_knot_length := coefficients_knot_length
            knot_location := knot_location
            span_coefficients := span_coefficients
            date_freq := date_freq
            _level_knot_dates := level_knot_dates
            _seasonality := cfg._seasonality
            _seasonality_fs_order := cfg._seasonality_fs_order
            _seasonal_initial_knot_scale := cfg._seasonal_initial_knot_scale
            _seasonal_knot_scale := cfg._seasonal_knot_scale
            regressor_col_gp := attrs.regressor_col_gp
            regressor_col := attrs.regressor_col
            coefficients_initial_knot_scale := attrs.coefficients_initial_knot_scale
            coefficients_knot_scale := attrs.coefficients_knot_scale
            num_of_regressors := attrs.num_of_regressors
            response_offset := 0
            is_valid_response := Option.none
            which_valid_response := Option.none
            num_of_valid_response := 0
            _cutoff := Option.none
            num_knots_level := Option.none
            knots_tp_level := Option.none
            _knots_idx_level := Option.none
            kernel_level := Option.none
            num_knots_coefficients := Option.none
            knots_tp_coefficients := Option.none
            _knots_idx_coef := Option.none
            _coef_knot_dates := Option.none
            regressor_matrix := Option.none
            kernel_coefficients := Option.none }

/-! ### Claims about configuration normalization -/

theorem seasGroup_ok_of_long (cfg : SeasonalityConfig) (idx : ℕ)
    (h1 : idx < cfg._seasonality.length)
    (h2 : idx < cfg._seasonality_fs_order.length)
    (h3 : idx < cfg._seasonal_initial_knot_scale.length)
    (h4 : idx < cfg._seasonal_knot_scale.length) :
    ∃ b, seasGroup cfg idx = .ok b := by
  unfold seasGroup
  rw [List.get?_eq_get h1, List.get?_eq_get h2, List.get?_eq_get h3,
    List.get?_eq_get h4]
  exact ⟨_, rfl⟩

theorem set_seasonality_attributes_ok (cfg : SeasonalityConfig)
    (h2 : cfg._seasonality.length ≤ cfg._seasonality_fs_order.length)
    (h3 : cfg._seasonality.length ≤ cfg._seasonal_initial_knot_scale.length)
    (h4 : cfg._seasonality.length ≤ cfg._seasonal_knot_scale.length) :
    ∃ attrs, set_seasonality_attributes cfg = .ok attrs := by
  obtain ⟨groups, hg⟩ := exceptMapList_ok_of_forall (seasGroup cfg)
    (List.range cfg._seasonality.length) (fun idx hidx => by
      rw [List.mem_range] at hidx
      exact seasGroup_ok_of_long cfg idx hidx (by omega) (by omega) (by omega))
  unfold set_seasonality_attributes
  rw [hg]
  exact ⟨_, rfl⟩

/-- C6: with equal-length seasonality and fourier-order lists (and scalar
prior scales), model construction succeeds exactly when
`2 * order[k] ≤ seasonality[k] - 1` at every index, and rejects with the
`IllegalArgument` over-fitting error when some index violates it. -/
theorem claim_C6_fourier_order_gate (s : List ℚ) (o : List ℤ) (x y : ℚ)
    (span_level span_coefficients level_knot_scale : ℚ) (lkd : Option (List ℚ))
    (lkl ckl : Option ℕ) (loc : String) (dfreq : Option ℚ)
    (hlen : o.length = s.length) :
    ((∃ st, initModel (.ofList s) (.ofList o) (.scalar x) (.scalar y)
        span_level span_coefficients level_knot_scale lkd lkl ckl loc dfreq
        = .ok st)
      ↔ ∀ p ∈ o.zip s, ((2 * p.1 : ℤ) : ℚ) ≤ p.2 - 1) ∧
    ((∃ p ∈ o.zip s, ((2 * p.1 : ℤ) : ℚ) > p.2 - 1) →
      initModel (.ofList s) (.ofList o) (.scalar x) (.scalar y)
        span_level span_coefficients level_knot_scale lkd lkl ckl loc dfreq
        = .error (.illegalArgument "reduce seasonality_fs_order to avoid over-fitting")) := by
  have hord : normalizeOrd (.ofList s) (.ofList o) = .ok o := rfl
  by_cases hex : ∃ p ∈ o.zip s, ((2 * p.1 : ℤ) : ℚ) > p.2 - 1
  · have hda : set_default_args (.ofList s) (.ofList o) (.scalar x) (.scalar y)
        = .error (.illegalArgument "reduce seasonality_fs_order to avoid over-fitting") := by
      unfold set_default_args
      rw [hord]
      dsimp only
      rw [if_neg (by simp [normalizeSeas, hlen]), if_pos (by simpa [normalizeSeas] using hex)]
    obtain ⟨p, hp, hgt⟩ := hex
    constructor
    · constructor
      · rintro ⟨st, hst⟩
        unfold initModel at hst
        rw [hda] at hst
        exact absurd hst (by simp)
      · intro hall
        exact absurd (hall p hp) (by push_neg; exact hgt)
    · intro _
      unfold initModel
      rw [hda]
  · have hda : set_default_args (.ofList s) (.ofList o) (.scalar x) (.scalar y)
        = .ok ⟨s, o, List.replicate s.length x, List.replicate s.length y⟩ := by
      unfold set_default_args
      rw [hord]
      dsimp only
      rw [if_neg (by simp [normalizeSeas, hlen]), if_neg (by simpa [normalizeSeas] using hex)]
      rfl
    constructor
    · constructor
      · intro _
        push_neg at hex
        intro p hp
        exact hex p hp
      · intro _
        obtain ⟨attrs, hattrs⟩ := set_seasonality_attributes_ok
          ⟨s, o, List.replicate s.length x, List.replicate s.length y⟩
          (by simpa using hlen.ge) (by simp) (by simp)
        exact ⟨_, by unfold initModel; rw [hda]; dsimp only; rw [hattrs]⟩
    · intro h
      exact absurd h hex

theorem claim_C6_witness :
    ((∃ st, initModel (.ofList [7]) (.ofList [2]) (.scalar 1) (.scalar (1/10))
        (1/10) (3/10) (1/2) Option.none Option.none Option.none "mid_point"
        Option.none = .ok st)
      ↔ ∀ p ∈ ([2] : List ℤ).zip ([7] : List ℚ), ((2 * p.1 : ℤ) : ℚ) ≤ p.2 - 1) ∧
    ((∃ p ∈ ([2] : List ℤ).zip ([7] : List ℚ), ((2 * p.1 : ℤ) : ℚ) > p.2 - 1) →
      initModel (.ofList [7]) (.ofList [2]) (.scalar 1) (.scalar (1/10))
        (1/10) (3/10) (1/2) Option.none Option.none Option.none "mid_point"
        Option.none
        = .error (.illegalArgument "reduce seasonality_fs_order to avoid over-fitting")) :=
  claim_C6_fourier_order_gate [7] [2] 1 (1/10) (1/10) (3/10) (1/2)
    Option.none Option.none Option.none "mid_point" Option.none (by decide)

/-- C8: configuration normalization wraps a scalar seasonality and a scalar
fourier order into one-element lists, defaults every order to exactly 2 when
seasonality is non-empty and no order is given (so seasonality `12` with no
order is equivalent to `[12]` with order `[2]`), and raises
`IllegalArgument` whenever the final order list's length differs from the
final seasonality list's length. -/
theorem claim_C8_normalization :
    (∀ (x : ℚ) (oIn : NumListInput ℤ) (isc ksc : ScaleInput),
      set_default_args (.scalar x) oIn isc ksc
        = set_default_args (.ofList [x]) oIn isc ksc) ∧
    (∀ (sIn : NumListInput ℚ) (y : ℤ) (isc ksc : ScaleInput),
      set_default_args sIn (.scalar y) isc ksc
        = set_default_args sIn (.ofList [y]) isc ksc) ∧
    (∀ (l : List ℚ) (isc ksc : ScaleInput), l ≠ [] →
      set_default_args (.ofList l) .none isc ksc
        = set_default_args (.ofList l) (.ofList (List.replicate l.length 2)) isc ksc) ∧
    (set_default_args (.scalar 12) .none (.scalar 1) (.scalar (1/10))
      = set_default_args (.ofList [12]) (.ofList [2]) (.scalar 1) (.scalar (1/10))) ∧
    (∀ (sIn : NumListInput ℚ) (oIn : NumListInput ℤ) (isc ksc : ScaleInput)
        (ord : List ℤ), normalizeOrd sIn oIn = .ok ord →
      ord.length ≠ (normalizeSeas sIn).length →
      set_default_args sIn oIn isc ksc
        = .error (.illegalArgument "length of seasonality and fs_order not matching")) := by
  refine ⟨?_, ?_, ?_, ?_, ?_⟩
  · intro x oIn isc ksc
    rfl
  · intro sIn y isc ksc
    cases sIn <;> rfl
  · intro l isc ksc hl
    unfold set_default_args normalizeOrd normalizeSeas
    have : l.length > 0 := List.length_pos.mpr hl
    simp [this]
  · rfl
  · intro sIn oIn isc ksc ord hord hne
    unfold set_default_args
    rw [hord]
    dsimp only
    rw [if_pos hne]

theorem claim_C8_witness :
    (set_default_args (.scalar 5) (.ofList [2]) (.scalar 1) (.scalar 1)
      = set_default_args (.ofList [5]) (.ofList [2]) (.scalar 1) (.scalar 1)) ∧
    (set_default_args (.ofList [9]) (.scalar 3) (.scalar 1) (.scalar 1)
      = set_default_args (.ofList [9]) (.ofList [3]) (.scalar 1) (.scalar 1)) ∧
    (set_default_args (.ofList [5]) .none (.scalar 1) (.scalar 1)
      = set_default_args (.ofList [5]) (.ofList (List.replicate 1 2))
          (.scalar 1) (.scalar 1)) ∧
    (set_default_args (.ofList [3, 4]) (.ofList [1]) (.scalar 1) (.scalar 1)
      = .error (.illegalArgument "length of seasonality and fs_order not matching")) :=
  ⟨claim_C8_normalization.1 5 (.ofList [2]) (.scalar 1) (.scalar 1),
   claim_C8_normalization.2.1 (.ofList [9]) 3 (.scalar 1) (.scalar 1),
   by
     have h := claim_C8_normalization.2.2.1 [5] (.scalar 1) (.scalar 1)
       (by decide)
     simpa using h,
   claim_C8_normalization.2.2.2.2 (.ofList [3, 4]) (.ofList [1])
     (.scalar 1) (.scalar 1) [1] rfl (by decide)⟩

/-- C10: a scalar prior-scale parameter is broadcast to one copy per
configured seasonality; a list is used as supplied with no length check
against the seasonality list; and the positional scale access in
`_set_seasonality_attributes` is reachable out of range — a scale list
strictly shorter than the seasonality list makes construction raise
`IndexError` rather than any named configuration error. -/
theorem claim_C10_scale_broadcast :
    (∀ (sIn : NumListInput ℚ) (oIn : NumListInput ℤ) (x y : ℚ)
        (cfg : SeasonalityConfig),
      set_default_args sIn oIn (.scalar x) (.scalar y) = .ok cfg →
      cfg._seasonal_initial_knot_scale
          = List.replicate cfg._seasonality.length x ∧
        cfg._seasonal_knot_scale = List.replicate cfg._seasonality.length y) ∧
    (∀ (sIn : NumListInput ℚ) (oIn : NumListInput ℤ) (lx ly : List ℚ)
        (cfg : SeasonalityConfig),
      set_default_args sIn oIn (.ofList lx) (.ofList ly) = .ok cfg →
      cfg._seasonal_initial_knot_scale = lx ∧ cfg._seasonal_knot_scale = ly) ∧
    (initModel (.ofList [7, 13]) .none (.ofList [1]) (.scalar 2)
        (1/10) (3/10) (1/2) Option.none Option.none Option.none "mid_point"
        Option.none
      = .error .indexError) := by
  have hcrash : initModel (.ofList [7, 13]) .none (.ofList [1]) (.scalar 2)
      (1/10) (3/10) (1/2) Option.none Option.none Option.none "mid_point"
      Option.none = .error .indexError := by
    have h1 : set_default_args (.ofList [7, 13]) .none (.ofList [1]) (.scalar 2)
        = .ok ⟨[7, 13], [2, 2], [1], [2, 2]⟩ := by
      unfold set_default_args normalizeOrd
      norm_num [normalizeSeas, broadcastScale, List.replicate]
    have h2 : set_seasonality_attributes ⟨[7, 13], [2, 2], [1], [2, 2]⟩
        = .error .indexError := by
      unfold set_seasonality_attributes
      norm_num [exceptMapList, seasGroup, List.range_succ, fsColNames]
    unfold initModel
    rw [h1]
    dsimp only
    rw [h2]
  refine ⟨?_, ?_, hcrash⟩
  · intro sIn oIn x y cfg h
    unfold set_default_args at h
    cases hord : normalizeOrd sIn oIn with
    | error e => rw [hord] at h; exact absurd h (by simp)
    | ok ord =>
      rw [hord] at h
      dsimp only at h
      split_ifs at h
      injection h with h
      subst h
      exact ⟨rfl, rfl⟩
  · intro sIn oIn lx ly cfg h
    unfold set_default_args at h
    cases hord : normalizeOrd sIn oIn with
    | error e => rw [hord] at h; exact absurd h (by simp)
    | ok ord =>
      rw [hord] at h
      dsimp only at h
      split_ifs at h
      injection h with h
      subst h
      exact ⟨rfl, rfl⟩

theorem claim_C10_witness :
    ((⟨[7], [2], [1], [1]⟩ : SeasonalityConfig)._seasonal_initial_knot_scale
        = List.replicate ([7] : List ℚ).length (1 : ℚ) ∧
      (⟨[7], [2], [1], [1]⟩ : SeasonalityConfig)._seasonal_knot_scale
        = List.replicate ([7] : List ℚ).length (1 : ℚ)) ∧
    ((⟨[7], [2], [4], [5]⟩ : SeasonalityConfig)._seasonal_initial_knot_scale
        = [4] ∧
      (⟨[7], [2], [4], [5]⟩ : SeasonalityConfig)._seasonal_knot_scale = [5]) :=
  ⟨claim_C10_scale_broadcast.1 (.ofList [7]) (.ofList [2]) 1 1
      ⟨[7], [2], [1], [1]⟩ (by
        unfold set_default_args normalizeOrd
        norm_num [normalizeSeas, broadcastScale, List.replicate]),
   claim_C10_scale_broadcast.2.1 (.ofList [7]) (.ofList [2]) [4] [5]
      ⟨[7], [2], [4], [5]⟩ (by
        unfold set_default_args normalizeOrd
        norm_num [normalizeSeas, broadcastScale, List.replicate])⟩

/-- C7: with seasonality configured, validation fails with a domain error
exactly when the number of observations is below `m = round(max(seasonality))`
and the message carries both counts; on success the response offset is the
missing-value-ignoring mean of the first `m` response values, and with no
seasonality it is that mean over the whole series. -/
theorem claim_C7_response_validation (seas : List ℚ)
    (response : List (Option ℚ)) (n : ℕ) :
    (seas ≠ [] →
      (((n : ℤ) < roundHalfEven (listMax seas) →
        set_validate_ktr_params seas response n = .error (.modelException
          ("Number of observations " ++ toString n
            ++ " is less than max seasonality "
            ++ toString (roundHalfEven (listMax seas))))) ∧
       (roundHalfEven (listMax seas) ≤ (n : ℤ) →
        ∃ v, set_validate_ktr_params seas response n = .ok v ∧
          v.response_offset
            = nanmean (pySlice response (roundHalfEven (listMax seas)))))) ∧
    (seas = [] →
      ∃ v, set_validate_ktr_params seas response n = .ok v ∧
        v.response_offset = nanmean response) := by
  constructor
  · intro hne
    have hempty : seas.isEmpty = false := by
      cases seas with
      | nil => exact absurd rfl hne
      | cons a l => rfl
    constructor
    · intro hlt
      unfold set_validate_ktr_params
      rw [hempty]
      simp only [Bool.false_eq_true, if_false]
      rw [if_pos hlt]
    · intro hge
      unfold set_validate_ktr_params
      rw [hempty]
      simp only [Bool.false_eq_true, if_false]
      rw [if_neg (by omega)]
      exact ⟨_, rfl, rfl⟩
  · intro hnil
    subst hnil
    exact ⟨_, rfl, rfl⟩

theorem claim_C7_witness :
    (set_validate_ktr_params [7] [some 1, some 2] 5 = .error (.modelException
      ("Number of observations " ++ toString 5
        ++ " is less than max seasonality "
        ++ toString (roundHalfEven (listMax [7])))) ∧
     (∃ v, set_validate_ktr_params [3] [some 1, some 2, some 6, some 9] 4
        = .ok v ∧
        v.response_offset
          = nanmean (pySlice [some 1, some 2, some 6, some 9]
              (roundHalfEven (listMax [3])))))
    ∧ ∃ v, set_validate_ktr_params [] [some 1, some 2] 2 = .ok v ∧
        v.response_offset = nanmean [some 1, some 2] :=
  ⟨⟨((claim_C7_response_validation [7] [some 1, some 2] 5).1
      (by decide)).1
      (by rw [show listMax [7] = ((7 : ℤ) : ℚ) by norm_num [listMax],
            roundHalfEven_intCast]; norm_num),
    ((claim_C7_response_validation [3] [some 1, some 2, some 6, some 9] 4).1
      (by decide)).2
      (by rw [show listMax [3] = ((3 : ℤ) : ℚ) by norm_num [listMax],
            roundHalfEven_intCast]; norm_num)⟩,
   (claim_C7_response_validation [] [some 1, some 2] 2).2 rfl⟩

/-! ### The fit pipeline (`set_dynamic_attributes`) -/

/-- A time-indexed table: the date column plus named numeric columns. -/
structure DataFrame where
  dates : List ℚ
  cols : List (String × List ℚ)
deriving DecidableEq, Repr

/-- The training metadata the caller supplies. -/
structure TrainingMeta where
  response : List (Option ℚ)
  num_of_observations : ℕ
  training_start : ℚ
  training_end : ℚ
deriving DecidableEq, Repr

/-- Modelled from the spec: the external periodic-basis generator
(`make_fourier_series_df` in `orbit.utils.features`, not under `src/`)
produces deterministic numeric harmonic values; the exact trigonometric
formula is out of the spec's scope, so a representative deterministic
periodic stand-in (a scaled sawtooth) is used — the claims need only
determinism and the column bookkeeping. -/
def fourierVal (s : ℚ) (i : ℕ) (isCos : Bool) (t : ℤ) : ℚ :=
  if s = 0 then 0
  else (if isCos then 1 else -1)
    * (((t * i : ℤ) : ℚ) - s * ⌊((t * i : ℤ) : ℚ) / s⌋) / s

/-- Modelled from the spec: `make_fourier_series_df(df, s, order=o,
prefix=p, shift)` appends `2*order` deterministically named, deterministically
ordered cosine/sine harmonic columns to the table, shifted by `shift`
observation steps, and returns the enriched table. -/
def make_fourier_series_df (df : DataFrame) (s : ℚ) (order : ℕ) (pre : String)
    (shift : ℤ) : DataFrame :=
  ⟨df.dates,
   df.cols ++ (List.range order).flatMap (fun i =>
     [(pre ++ "fs_cos" ++ toString (i + 1),
       (List.range df.dates.length).map (fun t => fourierVal s (i + 1) true (t + shift))),
      (pre ++ "fs_sin" ++ toString (i + 1),
       (List.range df.dates.length).map (fun t => fourierVal s (i + 1) false (t + shift)))])⟩

/-- `KTRLiteModel._make_seasonal_regressors`: attach the fourier columns of
every configured seasonality.  (The seasonality and order lists have equal
length on every constructed model, so pairing them embeds the indexed
loop.) -/
def make_seasonal_regressors (st : ModelState) (df : DataFrame) (shift : ℤ) :
    DataFrame :=
  (st._seasonality.zip st._seasonality_fs_order).foldl
    (fun d p => make_fourier_series_df d p.1 p.2.toNat
      ("seas" ++ toString p.1 ++ "_") shift) df

/-- `df.filter(items=...).values`: select the named columns (in the order of
`items`, keeping only those present) and read them as a row-major matrix. -/
def dfFilterValues (df : DataFrame) (items : List String) : MatrixQ :=
  ⟨df.dates.length,
   (items.filterMap (fun name => (df.cols.find? (fun c => c.1 == name)).map (·.2))).length,
   (List.range df.dates.length).map (fun r =>
     (items.filterMap (fun name => (df.cols.find? (fun c => c.1 == name)).map (·.2))).map
       (fun col => col.getD r 0))⟩

/-- `KTRLiteModel._set_regressor_matrix`: a `(num_of_observations, 0)` zero
matrix, replaced by the selected regressor columns when regressors exist. -/
def set_regressor_matrix (st : ModelState) (df : DataFrame)
    (meta : TrainingMeta) : ModelState :=
  if st.num_of_regressors > 0 then
    { st with regressor_matrix := some (dfFilterValues df st.regressor_col) }
  else
    { st with regressor_matrix := some (zerosM meta.num_of_observations 0) }

/-- Modelled from the spec: the external smoothing-kernel function
(`sandwich_kernel` in `orbit.utils.kernels`, not under `src/`).  The spec
fixes its contract — a matrix of shape `(len(tp), len(knots))` whose rows
are normalized proximity weights of each time position to the knots — and
leaves the weight formula out of scope, so a representative normalized
inverse-distance weight stands in. -/
def sandwich_kernel (tp knots : List ℚ) : MatrixQ :=
  ⟨tp.length, knots.length,
   tp.map (fun t =>
     if (knots.map (fun k => 1 / (1 + |t - k|))).foldl (· + ·) 0 = 0 then
       knots.map (fun k => 1 / (1 + |t - k|))
     else
       (knots.map (fun k => 1 / (1 + |t - k|))).map
         (· / (knots.map (fun k => 1 / (1 + |t - k|))).foldl (· + ·) 0))⟩

/-- Modelled from the spec: frequency inference (`pd.infer_freq`, external).
With at least three regularly spaced dates it reports their common positive
step; otherwise inference fails (pandas raises or returns `None`, and the
source's subscript of that result then surfaces as an exception). -/
def inferFreq (dates : List ℚ) : Option ℚ :=
  match dates with
  | a :: b :: c :: rest =>
      if (a :: b :: c :: rest).Chain' (fun x y => y - x = b - a) ∧ 0 < b - a then
        some (b - a)
      else Option.none
  | _ => Option.none

/-- `KTRLiteModel.get_gap_between_dates`: elapsed time between two dates in
calendar units (`(end_date - start_date) / np.timedelta64(1, freq)`). -/
def get_gap_between_dates (start_date end_date freq : ℚ) : ℚ :=
  (end_date - start_date) / freq

/-- The knot distance used by `_set_kernel_matrix`: the explicit knot length
when configured, else `math.ceil(cutoff / round(1 / span))`.  A zero
`round(1 / span)` makes the Python division raise `ZeroDivisionError`;
spans in the documented `(0, 1)` range always give a positive count
(negative counts, reachable only for spans outside the documented domain,
are outside the embedding). -/
def derivedKnotDistance (explicitLen : Option ℕ) (span : ℚ) (cutoff : ℕ) :
    Except OrbitError ℕ :=
  match explicitLen with
  | some L => .ok L
  | Option.none =>
      if (roundHalfEven (1 / span)).toNat = 0 then .error .zeroDivisionError
      else .ok (ceilDiv cutoff (roundHalfEven (1 / span)).toNat)

/-- `np.array(dates)[idx]` fancy indexing (out of range raises
`IndexError`). -/
def indexSelect (dates : List ℚ) (idx : List ℕ) : Except OrbitError (List ℚ) :=
  exceptMapList (fun i =>
    match dates.get? i with
    | some d => .ok d
    | Option.none => .error .indexError) idx

/-- The date filter of the explicit-dates branch: keep the supplied knot
dates inside `[first observed date, last observed date]`, in supplied
order. -/
def filterKnotDates (supplied : List ℚ) (firstDate lastDate : ℚ) : List ℚ :=
  supplied.filter (fun x => decide (x ≤ lastDate) && decide (firstDate ≤ x))

/-- The fractional positions of the explicit-dates branch:
`(gap(training_start, d) + 1) / (gap(training_start, training_end) + 1)`. -/
def dateKnotPositions (filtered : List ℚ) (tstart tend u : ℚ) : List ℚ :=
  filtered.map (fun d =>
    (get_gap_between_dates tstart d u + 1)
      / (get_gap_between_dates tstart tend u + 1))

/-- The time-position vector `tp[i] = (i + 1) / num_of_observations`. -/
def tpVector (n : ℕ) : List ℚ :=
  (List.range n).map (fun (i : ℕ) => ((i : ℚ) + 1) / n)

/-- The frequency used by the explicit-dates branch: the configured
`date_freq` when present, else the inferred frequency of the date column
(`pd.infer_freq(df[date_col])[0]`). -/
def resolveFreq (dfreq : Option ℚ) (dates : List ℚ) : Option ℚ :=
  match dfreq with
  | some u => some u
  | Option.none => inferFreq dates

/-- The level-knot step of `_set_kernel_matrix`: the level fractional knot
positions together with the updated `_level_knot_dates`, `_knots_idx_level`
and `date_freq`.  Without stored level knot dates the index rule runs (and
the dates at the knot indices are stored); with stored dates they are
filtered to the observed window and converted through calendar gaps. -/
def levelKnotsCompute (st : ModelState) (df : DataFrame) (meta : TrainingMeta) :
    Except OrbitError (List ℚ × List ℚ × Option (List ℕ) × Option ℚ) :=
  match st._level_knot_dates with
  | Option.none =>
    match derivedKnotDistance st.level_knot_length st.span_level
        meta.num_of_observations with
    | .error e => .error e
    | .ok dist =>
      match set_knots_tp dist meta.num_of_observations st.knot_location with
      | .error e => .error e
      | .ok idx =>
        match indexSelect df.dates idx with
        | .error e => .error e
        | .ok knotDates =>
            .ok (idx.map (fun (i : ℕ) => (1 + (i : ℚ)) / meta.num_of_observations),
                 knotDates, some idx, st.date_freq)
  | some supplied =>
    match df.dates.head?, df.dates.getLast? with
    | some firstDate, some lastDate =>
      match resolveFreq st.date_freq df.dates with
      | Option.none => .error .typeError
      | some u =>
          .ok (dateKnotPositions (filterKnotDates supplied firstDate lastDate)
                 meta.training_start meta.training_end u,
               filterKnotDates supplied firstDate lastDate,
               st._knots_idx_level, some u)
    | _, _ => .error .indexError

/-- The coefficient-knot step of `_set_kernel_matrix` (index rule only). -/
def coefKnotsCompute (st : ModelState) (df : DataFrame) (meta : TrainingMeta) :
    Except OrbitError (List ℚ × List ℚ × List ℕ) :=
  match derivedKnotDistance st.coefficients_knot_length st.span_coefficients
      meta.num_of_observations with
  | .error e => .error e
  | .ok dist =>
    match set_knots_tp dist meta.num_of_observations st.knot_location with
    | .error e => .error e
    | .ok idx =>
      match indexSelect df.dates idx with
      | .error e => .error e
      | .ok coefDates =>
          .ok (idx.map (fun (i : ℕ) => (1 + (i : ℚ)) / meta.num_of_observations),
               coefDates, idx)

/-- `KTRLiteModel._set_kernel_matrix`: place the level knots and build the
level kernel; initialize the coefficient kernel to a `(n, 0)` zero matrix
and zero knots, replaced by the coefficient-knot placement and kernel when
regressors exist.  (A Python exception leaves the instance partially
mutated; the embedding reports just the error, which is all the claims
read.) -/
def set_kernel_matrix (st : ModelState) (df : DataFrame) (meta : TrainingMeta) :
    Except OrbitError ModelState :=
  match levelKnotsCompute st df meta with
  | .error e => .error e
  | .ok (ktp, lkd, idxlev, dfreq) =>
    if st.num_of_regressors > 0 then
      match coefKnotsCompute st df meta with
      | .error e => .error e
      | .ok (ctp, cdates, cidx) =>
        .ok { st with
          _cutoff := some meta.num_of_observations
          knots_tp_level := some ktp
          _level_knot_dates := some lkd
          _knots_idx_level := idxlev
          date_freq := dfreq
          kernel_level := some (sandwich_kernel (tpVector meta.num_of_observations) ktp)
          num_knots_level := some ktp.length
          knots_tp_coefficients := some ctp
          _knots_idx_coef := some cidx
          _coef_knot_dates := some cdates
          kernel_coefficients := some (sandwich_kernel (tpVector meta.num_of_observations) ctp)
          num_knots_coefficients := some ctp.length }
    else
      .ok { st with
        _cutoff := some meta.num_of_observations
        knots_tp_level := some ktp
        _level_knot_dates := some lkd
        _knots_idx_level := idxlev
        date_freq := dfreq
        kernel_level := some (sandwich_kernel (tpVector meta.num_of_observations) ktp)
        num_knots_level := some ktp.length
        kernel_coefficients := some (zerosM meta.num_of_observations 0)
        num_knots_coefficients := some 0 }

/-- Store the validator outputs on the model. -/
def applyValidate (st : ModelState) (v : ValidateOut) : ModelState :=
  { st with response_offset := v.response_offset
            is_valid_response := some v.is_valid_response
            which_valid_response := some v.which_valid_response
            num_of_valid_response := v.num_of_valid_response }

/-- `KTRLiteModel.set_dynamic_attributes`: validate, attach the seasonal
regressors, build the regressor matrix, then the kernels.  Returns the
updated model together with the enriched table the matrices were read
from. -/
def set_dynamic_attributes (st : ModelState) (df : DataFrame)
    (meta : TrainingMeta) : Except OrbitError (ModelState × DataFrame) :=
  match set_validate_ktr_params st._seasonality meta.response
      meta.num_of_observations with
  | .error e => .error e
  | .ok v =>
    match set_kernel_matrix
        (set_regressor_matrix (applyValidate st v)
          (make_seasonal_regressors st df 0) meta)
        (make_seasonal_regressors st df 0) meta with
    | .error e => .error e
    | .ok st2 => .ok (st2, make_seasonal_regressors st df 0)

/-- The state published to the estimator: the level knot positions, the
level and coefficient kernel matrices, the knot counts, the regressor
matrix, and the validator outputs. -/
structure Published where
  knots_tp_level : Option (List ℚ)
  num_knots_level : Option ℕ
  kernel_level : Option MatrixQ
  num_knots_coefficients : Option ℕ
  knots_tp_coefficients : Option (List ℚ)
  kernel_coefficients : Option MatrixQ
  regressor_matrix : Option MatrixQ
  response_offset : ℚ
  is_valid_response : Option (List Bool)
  which_valid_response : Option (List ℕ)
  num_of_valid_response : ℕ
deriving DecidableEq, Repr

/-- Project the published state out of a model. -/
def published (st : ModelState) : Published :=
  ⟨st.knots_tp_level, st.num_knots_level, st.kernel_level,
   st.num_knots_coefficients, st.knots_tp_coefficients,
   st.kernel_coefficients, st.regressor_matrix, st.response_offset,
   st.is_valid_response, st.which_valid_response, st.num_of_valid_response⟩

/-! ### Inversion lemmas for the pipeline -/

theorem set_dynamic_attributes_ok_inv (st : ModelState) (df : DataFrame)
    (meta : TrainingMeta) (st' : ModelState) (df' : DataFrame)
    (h : set_dynamic_attributes st df meta = .ok (st', df')) :
    ∃ v, set_validate_ktr_params st._seasonality meta.response
        meta.num_of_observations = .ok v ∧
      df' = make_seasonal_regressors st df 0 ∧
      set_kernel_matrix (set_regressor_matrix (applyValidate st v) df' meta)
        df' meta = .ok st' := by
  unfold set_dynamic_attributes at h
  split at h
  · exact absurd h (by simp)
  · rename_i v hv
    split at h
    · exact absurd h (by simp)
    · rename_i st2 hk
      simp only [Except.ok.injEq, Prod.mk.injEq] at h
      obtain ⟨ha, hb⟩ := h
      subst ha
      subst hb
      exact ⟨v, hv, rfl, hk⟩

theorem set_kernel_matrix_zero_reg (st : ModelState) (df : DataFrame)
    (meta : TrainingMeta) (h : st.num_of_regressors = 0) (st' : ModelState)
    (hk : set_kernel_matrix st df meta = .ok st') :
    st'.kernel_coefficients = some (zerosM meta.num_of_observations 0) ∧
    st'.num_knots_coefficients = some 0 ∧
    st'.regressor_matrix = st.regressor_matrix ∧
    st'.regressor_col = st.regressor_col := by
  unfold set_kernel_matrix at hk
  split at hk
  · exact absurd hk (by simp)
  · rw [h] at hk
    simp only [gt_iff_lt, lt_self_iff_false, if_false, Except.ok.injEq] at hk
    subst hk
    exact ⟨rfl, rfl, rfl, rfl⟩

/-- C9: with no seasonality configured, a successful fit publishes a
`(num_of_observations, 0)` regressor matrix and coefficient kernel matrix,
zero coefficient knots, an empty regressor-column list, and adds no fourier
columns to the table. -/
theorem claim_C9_zero_regressors
    (fsIn : NumListInput ℤ) (isc ksc : ScaleInput) (spanl spanc lks : ℚ)
    (lkd : Option (List ℚ)) (lkl ckl : Option ℕ) (loc : String)
    (dfreq : Option ℚ) (st : ModelState)
    (hinit : initModel .none fsIn isc ksc spanl spanc lks lkd lkl ckl loc dfreq
      = .ok st)
    (df : DataFrame) (meta : TrainingMeta) (st' : ModelState) (df' : DataFrame)
    (hfit : set_dynamic_attributes st df meta = .ok (st', df')) :
    st'.regressor_matrix = some (zerosM meta.num_of_observations 0) ∧
    st'.kernel_coefficients = some (zerosM meta.num_of_observations 0) ∧
    st'.num_knots_coefficients = some 0 ∧
    st'.regressor_col = [] ∧
    df' = df := by
  have h1 : st._seasonality = [] := by rw [← Except.ok.inj hinit]; rfl
  have h2 : st.num_of_regressors = 0 := by rw [← Except.ok.inj hinit]; rfl
  have h3 : st.regressor_col = [] := by rw [← Except.ok.inj hinit]; rfl
  have hdf2 : make_seasonal_regressors st df 0 = df := by
    unfold make_seasonal_regressors
    rw [h1]
    rfl
  obtain ⟨v, hv, hdf', hk⟩ := set_dynamic_attributes_ok_inv st df meta st' df' hfit
  rw [hdf2] at hdf'
  subst hdf'
  have hreg0 : (set_regressor_matrix (applyValidate st v) df' meta).num_of_regressors
      = 0 := by
    unfold set_regressor_matrix
    split <;> simpa [applyValidate] using h2
  obtain ⟨hkc, hnkc, hrm, hrc⟩ :=
    set_kernel_matrix_zero_reg _ df' meta hreg0 st' hk
  refine ⟨?_, hkc, hnkc, ?_, rfl⟩
  · rw [hrm]
    unfold set_regressor_matrix
    rw [if_neg (by simp [applyValidate, h2])]
  · rw [hrc]
    unfold set_regressor_matrix
    split <;> simpa [applyValidate] using h3

/-! ### A concrete fit scenario

A model with no seasonality, `level_knot_length = 1`, mid-point knots, no
explicit level knot dates and no explicit frequency, fit on three daily
observations.  The caller-supplied `training_end` is `3`, one step past the
last observed date `2` (nothing in the metadata contract ties it to the
table). -/

/-- The constructed model of the concrete scenario. -/
def fitSt0 : ModelState :=
  { span_level := 1/2
    level_knot_scale := 1
    level_knot_dates := Option.none
    level_knot_length := some 1
    coefficients_knot_length := Option.none
    knot_location := "mid_point"
    span_coefficients := 1/2
    date_freq := Option.none
    _level_knot_dates := Option.none
    _seasonality := []
    _seasonality_fs_order := []
    _seasonal_initial_knot_scale := []
    _seasonal_knot_scale := []
    regressor_col_gp := []
    regressor_col := []
    coefficients_initial_knot_scale := []
    coefficients_knot_scale := []
    num_of_regressors := 0
    response_offset := 0
    is_valid_response := Option.none
    which_valid_response := Option.none
    num_of_valid_response := 0
    _cutoff := Option.none
    num_knots_level := Option.none
    knots_tp_level := Option.none
    _knots_idx_level := Option.none
    kernel_level := Option.none
    num_knots_coefficients := Option.none
    knots_tp_coefficients := Option.none
    _knots_idx_coef := Option.none
    _coef_knot_dates := Option.none
    regressor_matrix := Option.none
    kernel_coefficients := Option.none }

/-- The input table of the concrete scenario: daily dates `0, 1, 2`. -/
def fitdf : DataFrame := ⟨[0, 1, 2], []⟩

/-- The training metadata of the concrete scenario. -/
def fitmeta : TrainingMeta := ⟨[some 1, some 2, some 3], 3, 0, 3⟩

theorem fitSt0_init : initModel .none .none (.scalar 1) (.scalar 1) (1/2) (1/2)
    1 Option.none (some 1) Option.none "mid_point" Option.none = .ok fitSt0 := rfl

/-- The model state after the first fit of the concrete scenario. -/
def fitSt1 : ModelState :=
  { fitSt0 with
    response_offset := 2
    is_valid_response := some [true, true, true]
    which_valid_response := some [0, 1, 2]
    num_of_valid_response := 3
    regressor_matrix := some (zerosM 3 0)
    _cutoff := some 3
    knots_tp_level := some [1/3, 2/3, 1]
    _level_knot_dates := some [0, 1, 2]
    _knots_idx_level := some [0, 1, 2]
    kernel_level := some (sandwich_kernel (tpVector 3) [1/3, 2/3, 1])
    num_knots_level := some 3
    kernel_coefficients := some (zerosM 3 0)
    num_knots_coefficients := some 0 }

/-- The model state after the second fit of the concrete scenario: the first
fit stored `_level_knot_dates`, so the second takes the explicit-dates
branch, infers the frequency, and lands the level knots at different
positions. -/
def fitSt2 : ModelState :=
  { fitSt1 with
    date_freq := some 1
    knots_tp_level := some [1/4, 1/2, 3/4]
    kernel_level := some (sandwich_kernel (tpVector 3) [1/4, 1/2, 3/4]) }

theorem fit1_eval : set_dynamic_attributes fitSt0 fitdf fitmeta
    = .ok (fitSt1, fitdf) := by
  norm_num [set_dynamic_attributes, set_validate_ktr_params, nanmean,
    validIndices, applyValidate, make_seasonal_regressors, set_regressor_matrix,
    set_kernel_matrix, levelKnotsCompute, derivedKnotDistance, set_knots_tp,
    arangeUp, knotsIdxStart, ceilDiv, indexSelect, exceptMapList,
    fitSt0, fitSt1, fitdf, fitmeta, List.range_succ, List.enum, List.enumFrom,
    List.filterMap_cons, List.foldl_cons, List.foldl_nil, id_eq]

theorem fit2_eval : set_dynamic_attributes fitSt1 fitdf fitmeta
    = .ok (fitSt2, fitdf) := by
  norm_num [set_dynamic_attributes, set_validate_ktr_params, nanmean,
    validIndices, applyValidate, make_seasonal_regressors, set_regressor_matrix,
    set_kernel_matrix, levelKnotsCompute, filterKnotDates, dateKnotPositions,
    get_gap_between_dates, resolveFreq, inferFreq, List.chain'_cons,
    List.chain'_singleton,
    List.filter_cons, List.filter_nil, Bool.and_eq_true, decide_eq_true_eq,
    fitSt0, fitSt1, fitSt2, fitdf, fitmeta, List.range_succ, List.enum,
    List.enumFrom, List.filterMap_cons, List.foldl_cons, List.foldl_nil, id_eq]

/-- C1 fails as stated: rerunning the fit with identical inputs changes the
published level knot positions, because the first fit cached the computed
knot dates in `_level_knot_dates` and the second fit therefore places level
knots through the explicit-dates rule instead of the span/length-based index
rule. -/
theorem claim_C1_counterexample :
    (set_dynamic_attributes fitSt0 fitdf fitmeta).map
        (fun p => (published p.1).knots_tp_level) = .ok (some [1/3, 2/3, 1]) ∧
    ((set_dynamic_attributes fitSt0 fitdf fitmeta).bind (fun p =>
        set_dynamic_attributes p.1 fitdf fitmeta)).map
        (fun p => (published p.1).knots_tp_level) = .ok (some [1/4, 1/2, 3/4]) ∧
    some [1/4, 1/2, (3/4 : ℚ)] ≠ some [1/3, 2/3, 1] := by
  refine ⟨?_, ?_, by norm_num⟩
  · rw [fit1_eval]
    rfl
  · rw [fit1_eval]
    show (set_dynamic_attributes fitSt1 fitdf fitmeta).map
        (fun p => (published p.1).knots_tp_level) = .ok (some [1/4, 1/2, 3/4])
    rw [fit2_eval]
    rfl

theorem claim_C9_witness :
    fitSt1.regressor_matrix = some (zerosM fitmeta.num_of_observations 0) ∧
    fitSt1.kernel_coefficients = some (zerosM fitmeta.num_of_observations 0) ∧
    fitSt1.num_knots_coefficients = some 0 ∧
    fitSt1.regressor_col = [] ∧
    fitdf = fitdf :=
  claim_C9_zero_regressors .none (.scalar 1) (.scalar 1) (1/2) (1/2) 1
    Option.none (some 1) Option.none "mid_point" Option.none fitSt0 fitSt0_init
    fitdf fitmeta fitSt1 fitdf fit1_eval

/-! ### More inversion lemmas -/

theorem set_kernel_matrix_level_inv (st : ModelState) (df : DataFrame)
    (meta : TrainingMeta) (st' : ModelState)
    (hk : set_kernel_matrix st df meta = .ok st') :
    ∃ ktp lkd idxlev dfreq,
      levelKnotsCompute st df meta = .ok (ktp, lkd, idxlev, dfreq) ∧
      st'.knots_tp_level = some ktp ∧ st'._level_knot_dates = some lkd ∧
      st'._knots_idx_level = idxlev ∧ st'.date_freq = dfreq ∧
      st'.num_knots_level = some ktp.length ∧
      st'.kernel_level
        = some (sandwich_kernel (tpVector meta.num_of_observations) ktp) := by
  unfold set_kernel_matrix at hk
  split at hk
  · exact absurd hk (by simp)
  · rename_i res ktp lkd idxlev dfreq heq
    split at hk
    · split at hk
      · exact absurd hk (by simp)
      · simp only [Except.ok.injEq] at hk
        subst hk
        exact ⟨ktp, lkd, idxlev, dfreq, heq, rfl, rfl, rfl, rfl, rfl, rfl⟩
    · simp only [Except.ok.injEq] at hk
      subst hk
      exact ⟨ktp, lkd, idxlev, dfreq, heq, rfl, rfl, rfl, rfl, rfl, rfl⟩

theorem levelKnotsCompute_none_inv (st : ModelState) (df : DataFrame)
    (meta : TrainingMeta) (out : List ℚ × List ℚ × Option (List ℕ) × Option ℚ)
    (hnone : st._level_knot_dates = Option.none)
    (h : levelKnotsCompute st df meta = .ok out) :
    ∃ dist idx dates,
      derivedKnotDistance st.level_knot_length st.span_level
        meta.num_of_observations = .ok dist ∧
      set_knots_tp dist meta.num_of_observations st.knot_location = .ok idx ∧
      indexSelect df.dates idx = .ok dates ∧
      out = (idx.map (fun (i : ℕ) => (1 + (i : ℚ)) / meta.num_of_observations),
             dates, some idx, st.date_freq) := by
  unfold levelKnotsCompute at h
  split at h
  · split at h
    · exact absurd h (by simp)
    · rename_i dist hdist
      split at h
      · exact absurd h (by simp)
      · rename_i idx hidx
        split at h
        · exact absurd h (by simp)
        · rename_i dates hdates
          simp only [Except.ok.injEq] at h
          exact ⟨dist, idx, dates, hdist, hidx, hdates, h.symm⟩
  · rename_i supplied hsup
    rw [hnone] at hsup
    exact absurd hsup (by simp)

/-- C4: the knot distance handed to the knot placer is the explicitly
configured knot length when one is supplied, and otherwise
`ceil(cutoff / round(1 / span))`; the fit pipeline uses exactly this
distance for the level knots, and the ceiling-based derivation can realize
one knot fewer than `round(1 / span)` when `cutoff` is not evenly
divisible (e.g. span `1/10`, cutoff `95`: distance `10`, only `9` mid-point
knots). -/
theorem claim_C4_knot_distance :
    (∀ (L : ℕ) (span : ℚ) (cutoff : ℕ),
        derivedKnotDistance (some L) span cutoff = .ok L) ∧
    (∀ (span : ℚ) (cutoff : ℕ), 0 < span → span < 1 →
        derivedKnotDistance Option.none span cutoff
          = .ok (ceilDiv cutoff (roundHalfEven (1 / span)).toNat)) ∧
    (∀ (st : ModelState) (df : DataFrame) (meta : TrainingMeta)
        (st' : ModelState) (df' : DataFrame),
      set_dynamic_attributes st df meta = .ok (st', df') →
      st._level_knot_dates = Option.none →
      ∃ dist idx,
        derivedKnotDistance st.level_knot_length st.span_level
          meta.num_of_observations = .ok dist ∧
        set_knots_tp dist meta.num_of_observations st.knot_location = .ok idx ∧
        st'._knots_idx_level = some idx) ∧
    (roundHalfEven (1 / (1/10 : ℚ)) = 10 ∧
     derivedKnotDistance Option.none (1/10) 95 = .ok 10 ∧
     ∃ ks, set_knots_tp 10 95 "mid_point" = .ok ks ∧ ks.length = 9) := by
  have hround : ∀ q : ℚ, ⌊q⌋ ≤ roundHalfEven q := by
    intro q
    unfold roundHalfEven
    split_ifs <;> omega
  have h10 : roundHalfEven (1 / (1/10 : ℚ)) = 10 := by
    rw [show (1 / (1/10 : ℚ)) = ((10 : ℤ) : ℚ) by norm_num, roundHalfEven_intCast]
  refine ⟨fun L span cutoff => rfl, ?_, ?_, h10, ?_, ?_⟩
  · intro span cutoff h0 h1
    have hq : (1 : ℚ) < 1 / span := by
      rw [lt_div_iff₀ h0]
      linarith
    have hfl : (1 : ℤ) ≤ ⌊(1 : ℚ) / span⌋ := Int.le_floor.mpr (by exact_mod_cast hq.le)
    have hpos : 1 ≤ roundHalfEven (1 / span) := le_trans hfl (hround _)
    unfold derivedKnotDistance
    rw [if_neg (by omega)]
  · intro st df meta st' df' hfit hnone
    obtain ⟨v, hv, hdf', hk⟩ := set_dynamic_attributes_ok_inv st df meta st' df' hfit
    have hnone2 : (set_regressor_matrix (applyValidate st v) df' meta)._level_knot_dates
        = Option.none := by
      unfold set_regressor_matrix
      split <;> simpa [applyValidate] using hnone
    obtain ⟨ktp, lkd, idxlev, dfreq, hlev, _, _, hidxlev, _, _, _⟩ :=
      set_kernel_matrix_level_inv _ df' meta st' hk
    obtain ⟨dist, idx, dates, hdist, hidx, _, hout⟩ :=
      levelKnotsCompute_none_inv _ df' meta _ hnone2 hlev
    have hll : (set_regressor_matrix (applyValidate st v) df' meta).level_knot_length
        = st.level_knot_length := by
      unfold set_regressor_matrix
      split <;> rfl
    have hsl : (set_regressor_matrix (applyValidate st v) df' meta).span_level
        = st.span_level := by
      unfold set_regressor_matrix
      split <;> rfl
    have hkl : (set_regressor_matrix (applyValidate st v) df' meta).knot_location
        = st.knot_location := by
      unfold set_regressor_matrix
      split <;> rfl
    rw [hll, hsl] at hdist
    rw [hkl] at hidx
    refine ⟨dist, idx, hdist, hidx, ?_⟩
    simp only [Prod.mk.injEq] at hout
    rw [hidxlev, hout.2.2.1]
  · unfold derivedKnotDistance
    rw [h10]
    rw [if_neg (by omega)]
    decide
  · refine ⟨arangeUp (knotsIdxStart 10) 95 10, ?_, by decide⟩
    simp [set_knots_tp]

theorem claim_C4_witness :
    derivedKnotDistance (some 4) (1/2) 30 = .ok 4 ∧
    derivedKnotDistance Option.none (1/3) 10
      = .ok (ceilDiv 10 (roundHalfEven (1 / (1/3 : ℚ))).toNat) ∧
    (∃ dist idx,
      derivedKnotDistance fitSt0.level_knot_length fitSt0.span_level
        fitmeta.num_of_observations = .ok dist ∧
      set_knots_tp dist fitmeta.num_of_observations fitSt0.knot_location
        = .ok idx ∧
      fitSt1._knots_idx_level = some idx) :=
  ⟨claim_C4_knot_distance.1 4 (1/2) 30,
   claim_C4_knot_distance.2.1 (1/3) 10 (by norm_num) (by norm_num),
   claim_C4_knot_distance.2.2.1 fitSt0 fitdf fitmeta fitSt1 fitdf fit1_eval rfl⟩

/-! ### A concrete fit scenario with explicit, unsorted level knot dates -/

/-- A no-seasonality model with explicit level knot dates `[3, 1]` (within
the window but not ascending) and an explicit daily frequency. -/
def c5St0 : ModelState :=
  { fitSt0 with
    level_knot_dates := some [3, 1]
    _level_knot_dates := some [3, 1]
    date_freq := some 1 }

/-- Five daily observations. -/
def c5df : DataFrame := ⟨[0, 1, 2, 3, 4], []⟩

/-- Metadata whose window matches the observed dates. -/
def c5meta : TrainingMeta :=
  ⟨[some 1, some 2, some 3, some 4, some 5], 5, 0, 4⟩

/-- The state after fitting the explicit-dates model. -/
def c5St1 : ModelState :=
  { c5St0 with
    response_offset := 3
    is_valid_response := some [true, true, true, true, true]
    which_valid_response := some [0, 1, 2, 3, 4]
    num_of_valid_response := 5
    regressor_matrix := some (zerosM 5 0)
    _cutoff := some 5
    knots_tp_level := some [4/5, 2/5]
    _level_knot_dates := some [3, 1]
    kernel_level := some (sandwich_kernel (tpVector 5) [4/5, 2/5])
    num_knots_level := some 2
    kernel_coefficients := some (zerosM 5 0)
    num_knots_coefficients := some 0 }

theorem c5fit_eval : set_dynamic_attributes c5St0 c5df c5meta
    = .ok (c5St1, c5df) := by
  norm_num [set_dynamic_attributes, set_validate_ktr_params, nanmean,
    validIndices, applyValidate, make_seasonal_regressors, set_regressor_matrix,
    set_kernel_matrix, levelKnotsCompute, filterKnotDates, dateKnotPositions,
    get_gap_between_dates, resolveFreq, List.filter_cons, List.filter_nil,
    Bool.and_eq_true,
    decide_eq_true_eq, fitSt0, c5St0, c5St1, c5df, c5meta, List.range_succ,
    List.enum, List.enumFrom, List.filterMap_cons, List.foldl_cons,
    List.foldl_nil, id_eq]

/-- C5 fails as stated: with explicit level knot dates supplied out of
order, the published level knot positions are not strictly increasing. -/
theorem claim_C5_counterexample :
    (set_dynamic_attributes c5St0 c5df c5meta).map
        (fun p => p.1.knots_tp_level) = .ok (some [4/5, 2/5]) ∧
    ¬ ([4/5, (2/5 : ℚ)].Pairwise (· < ·)) := by
  constructor
  · rw [c5fit_eval]
    rfl
  · intro hp
    have h := (List.pairwise_cons.mp hp).1 (2/5) (by simp)
    norm_num at h

theorem make_seasonal_regressors_dates (st : ModelState) (df : DataFrame)
    (s : ℤ) : (make_seasonal_regressors st df s).dates = df.dates := by
  unfold make_seasonal_regressors
  generalize st._seasonality.zip st._seasonality_fs_order = l
  induction l generalizing df with
  | nil => rfl
  | cons p l ih =>
    rw [List.foldl_cons, ih]
    rfl

theorem srm_av_fields (st : ModelState) (v : ValidateOut) (dfx : DataFrame)
    (meta : TrainingMeta) :
    (set_regressor_matrix (applyValidate st v) dfx meta)._level_knot_dates
        = st._level_knot_dates ∧
    (set_regressor_matrix (applyValidate st v) dfx meta).date_freq
        = st.date_freq ∧
    (set_regressor_matrix (applyValidate st v) dfx meta)._knots_idx_level
        = st._knots_idx_level ∧
    (set_regressor_matrix (applyValidate st v) dfx meta).num_of_regressors
        = st.num_of_regressors := by
  unfold set_regressor_matrix applyValidate
  split <;> exact ⟨rfl, rfl, rfl, rfl⟩

theorem levelKnotsCompute_some_inv (st : ModelState) (df : DataFrame)
    (meta : TrainingMeta) (out : List ℚ × List ℚ × Option (List ℕ) × Option ℚ)
    (supplied : List ℚ) (u : ℚ)
    (hsome : st._level_knot_dates = some supplied)
    (hres : resolveFreq st.date_freq df.dates = some u)
    (h : levelKnotsCompute st df meta = .ok out) :
    ∃ firstDate lastDate,
      df.dates.head? = some firstDate ∧ df.dates.getLast? = some lastDate ∧
      out = (dateKnotPositions (filterKnotDates supplied firstDate lastDate)
               meta.training_start meta.training_end u,
             filterKnotDates supplied firstDate lastDate,
             st._knots_idx_level, some u) := by
  unfold levelKnotsCompute at h
  split at h
  · rename_i hnone
    rw [hsome] at hnone
    exact absurd hnone (by simp)
  · rename_i supplied2 hsup
    rw [hsome] at hsup
    have hs2 : supplied2 = supplied := by
      injection hsup with hs
      exact hs.symm
    subst hs2
    split at h
    · rename_i firstDate lastDate hhead hlast
      rw [hres] at h
      simp only [] at h
      simp only [Except.ok.injEq] at h
      exact ⟨firstDate, lastDate, hhead, hlast, h.symm⟩
    · exact absurd h (by simp)

/-- C5 amended: the level knot positions computed from explicitly supplied
dates are exactly the filter-then-map formula the claim states, and they all
lie in `(0, 1]` and are strictly increasing PROVIDED the supplied dates are
strictly increasing and the training window matches the observed window
(`training_start` = first observed date, `training_end` = last observed
date) with a positive frequency unit; an unsorted date list survives the
filter in supplied order, so monotonicity can fail without that proviso. -/
theorem claim_C5_amended :
    (∀ (st : ModelState) (df : DataFrame) (meta : TrainingMeta)
        (st' : ModelState) (df' : DataFrame) (supplied : List ℚ)
        (firstDate lastDate u : ℚ),
      set_dynamic_attributes st df meta = .ok (st', df') →
      st._level_knot_dates = some supplied →
      st.date_freq = some u →
      df.dates.head? = some firstDate →
      df.dates.getLast? = some lastDate →
      st'.knots_tp_level
        = some (dateKnotPositions (filterKnotDates supplied firstDate lastDate)
            meta.training_start meta.training_end u)) ∧
    (∀ (supplied : List ℚ) (firstDate lastDate u : ℚ), 0 < u →
      supplied.Pairwise (· < ·) →
      (∀ q ∈ dateKnotPositions (filterKnotDates supplied firstDate lastDate)
          firstDate lastDate u, 0 < q ∧ q ≤ 1) ∧
      (dateKnotPositions (filterKnotDates supplied firstDate lastDate)
          firstDate lastDate u).Pairwise (· < ·)) := by
  constructor
  · intro st df meta st' df' supplied firstDate lastDate u hfit hlkd hfreq hhead hlast
    obtain ⟨v, hv, hdf', hk⟩ := set_dynamic_attributes_ok_inv st df meta st' df' hfit
    obtain ⟨hP1, hP2, hP3, _⟩ := srm_av_fields st v df' meta
    obtain ⟨ktp, lkd, idxlev, dfreq, hlev, hktp, _, _, _, _, _⟩ :=
      set_kernel_matrix_level_inv _ df' meta st' hk
    obtain ⟨f2, l2, hh2, hl2, hout⟩ :=
      levelKnotsCompute_some_inv _ df' meta _ supplied u (hP1.trans hlkd)
        (by rw [hP2, hfreq]; rfl) hlev
    have hdd : df'.dates = df.dates := by
      rw [hdf']
      exact make_seasonal_regressors_dates st df 0
    rw [hdd, hhead] at hh2
    rw [hdd, hlast] at hl2
    have hf2 : f2 = firstDate := by
      injection hh2 with h'
      exact h'.symm
    have hl2' : l2 = lastDate := by
      injection hl2 with h'
      exact h'.symm
    subst hf2
    subst hl2'
    simp only [Prod.mk.injEq] at hout
    rw [hktp, hout.1]
  · intro supplied firstDate lastDate u hu hsorted
    constructor
    · intro q hq
      unfold dateKnotPositions at hq
      rw [List.mem_map] at hq
      obtain ⟨d, hd, rfl⟩ := hq
      have hdw : firstDate ≤ d ∧ d ≤ lastDate := by
        unfold filterKnotDates at hd
        have hm := List.mem_filter.mp hd
        simp only [Bool.and_eq_true, decide_eq_true_eq] at hm
        exact ⟨hm.2.2, hm.2.1⟩
      unfold get_gap_between_dates
      have hnum : (0:ℚ) < (d - firstDate) / u + 1 := by
        have : (0:ℚ) ≤ (d - firstDate) / u := div_nonneg (by linarith [hdw.1]) hu.le
        linarith
      have hden : (0:ℚ) < (lastDate - firstDate) / u + 1 := by
        have h0 : firstDate ≤ lastDate := le_trans hdw.1 hdw.2
        have : (0:ℚ) ≤ (lastDate - firstDate) / u := div_nonneg (by linarith) hu.le
        linarith
      refine ⟨div_pos hnum hden, ?_⟩
      rw [div_le_one hden]
      have : (d - firstDate) / u ≤ (lastDate - firstDate) / u := by
        rw [div_le_div_iff_of_pos_right hu]
        linarith [hdw.2]
      linarith
    · unfold dateKnotPositions
      rw [List.pairwise_map]
      refine List.Pairwise.imp_of_mem ?_ (hsorted.filter _)
      intro a b ha hb hab
      have haw := List.mem_filter.mp ha
      have hbw := List.mem_filter.mp hb
      simp only [Bool.and_eq_true, decide_eq_true_eq] at haw hbw
      have hfl : firstDate ≤ lastDate := le_trans haw.2.2 haw.2.1
      unfold get_gap_between_dates
      have hden : (0:ℚ) < (lastDate - firstDate) / u + 1 := by
        have : (0:ℚ) ≤ (lastDate - firstDate) / u := div_nonneg (by linarith) hu.le
        linarith
      rw [div_lt_div_iff_of_pos_right hden]
      have : (a - firstDate) / u < (b - firstDate) / u := by
        rw [div_lt_div_iff_of_pos_right hu]
        linarith
      linarith

theorem claim_C5_witness :
    c5St1.knots_tp_level
      = some (dateKnotPositions (filterKnotDates [3, 1] 0 4)
          c5meta.training_start c5meta.training_end 1) ∧
    ((∀ q ∈ dateKnotPositions (filterKnotDates [1, 3] 0 4) 0 4 1,
        0 < q ∧ q ≤ 1) ∧
      (dateKnotPositions (filterKnotDates [1, 3] 0 4) 0 4 1).Pairwise (· < ·)) :=
  ⟨claim_C5_amended.1 c5St0 c5df c5meta c5St1 c5df [3, 1] 0 4 1 c5fit_eval
      rfl rfl rfl rfl,
   claim_C5_amended.2 [1, 3] 0 4 1 (by norm_num)
      (by norm_num [List.pairwise_cons])⟩

/-! ### Helper lemmas for the refit analysis -/

theorem set_knots_tp_lt (d cutoff : ℕ) (loc : String) (ks : List ℕ)
    (h : set_knots_tp d cutoff loc = .ok ks) : ∀ x ∈ ks, x < cutoff := by
  unfold set_knots_tp at h
  by_cases h1 : loc = "mid_point"
  · rw [if_pos h1] at h
    by_cases h2 : d = 0
    · rw [if_pos h2] at h
      exact absurd h (by simp)
    · rw [if_neg h2] at h
      simp only [Except.ok.injEq] at h
      subst h
      intro x hx
      exact ((arangeUp_mem _ _ _ (Nat.pos_of_ne_zero h2) x).mp hx).2
  · rw [if_neg h1] at h
    by_cases h3 : loc = "end_point"
    · rw [if_pos h3] at h
      by_cases h4 : d = 0
      · rw [if_pos h4] at h
        exact absurd h (by simp)
      · rw [if_neg h4] at h
        simp only [Except.ok.injEq] at h
        subst h
        intro x hx
        rw [List.mem_reverse] at hx
        obtain ⟨⟨k, hk⟩, hxpos⟩ :=
          (arangeDownPos_mem _ _ (Nat.pos_of_ne_zero h4) x).mp hx
        omega
    · rw [if_neg h3] at h
      exact absurd h (by simp)

theorem exceptMapList_eq_map {α β : Type} (f : α → Except OrbitError β)
    (g : α → β) (l : List α) (h : ∀ a ∈ l, f a = .ok (g a)) :
    exceptMapList f l = .ok (l.map g) := by
  induction l with
  | nil => rfl
  | cons a l ih =>
    rw [exceptMapList, h a (List.mem_cons_self a l),
      ih (fun x hx => h x (List.mem_cons_of_mem _ hx))]
    rfl

theorem indexSelect_map_range (n : ℕ) (f : ℕ → ℚ) (idx : List ℕ)
    (hidx : ∀ i ∈ idx, i < n) :
    indexSelect ((List.range n).map f) idx = .ok (idx.map f) := by
  unfold indexSelect
  apply exceptMapList_eq_map
  intro i hi
  rw [List.get?_map, List.get?_range (hidx i hi)]
  rfl

theorem headQ_map_range (n : ℕ) (hn : 0 < n) (f : ℕ → ℚ) :
    ((List.range n).map f).head? = some (f 0) := by
  cases n with
  | zero => omega
  | succ m =>
    rw [List.range_succ_eq_map]
    rfl

theorem getLastQ_map_range (n : ℕ) (hn : 0 < n) (f : ℕ → ℚ) :
    ((List.range n).map f).getLast? = some (f (n - 1)) := by
  cases n with
  | zero => omega
  | succ m =>
    rw [List.range_succ, List.map_append]
    simp [List.getLast?_concat]

theorem chain_arith (m : ℕ) (d0 u : ℚ) :
    List.Chain' (fun x y => y - x = u)
      ((List.range m).map (fun (i : ℕ) => d0 + i * u)) := by
  rw [List.chain'_map, List.chain'_iff_get]
  intro i hi
  simp only [List.get_range]
  push_cast
  ring

theorem inferFreq_arith (n : ℕ) (hn : 3 ≤ n) (d0 u : ℚ) (hu : 0 < u) :
    inferFreq ((List.range n).map (fun (i : ℕ) => d0 + i * u)) = some u := by
  have hlen : ((List.range n).map (fun (i : ℕ) => d0 + i * u)).length = n := by
    simp
  obtain ⟨a, t1, hL1⟩ := List.exists_cons_of_ne_nil
    (l := (List.range n).map (fun (i : ℕ) => d0 + i * u))
    (by intro hcon; rw [hcon] at hlen; simp at hlen; omega)
  have hlen1 : t1.length = n - 1 := by
    have := hlen
    rw [hL1] at this
    simp at this
    omega
  obtain ⟨b, t2, hL2⟩ := List.exists_cons_of_ne_nil
    (l := t1) (by intro hcon; rw [hcon] at hlen1; simp at hlen1; omega)
  have hlen2 : t2.length = n - 2 := by
    have := hlen1
    rw [hL2] at this
    simp at this
    omega
  obtain ⟨c, t3, hL3⟩ := List.exists_cons_of_ne_nil
    (l := t2) (by intro hcon; rw [hcon] at hlen2; simp at hlen2; omega)
  have ha : a = d0 + (0 : ℕ) * u := by
    have h0 := headQ_map_range n (by omega) (fun (i : ℕ) => d0 + i * u)
    rw [hL1] at h0
    injection h0
  have hb : b = d0 + (1 : ℕ) * u := by
    have h1 : ((List.range n).map (fun (i : ℕ) => d0 + i * u)).get? 1
        = some (d0 + (1 : ℕ) * u) := by
      rw [List.get?_map, List.get?_range (by omega)]
      rfl
    rw [hL1, hL2] at h1
    injection h1
  have hba : b - a = u := by
    rw [ha, hb]
    push_cast
    ring
  have hchain : List.Chain' (fun x y => y - x = b - a) (a :: b :: c :: t3) := by
    rw [← hL3, ← hL2, ← hL1, hba]
    exact chain_arith n d0 u
  rw [hL1, hL2, hL3]
  show (if List.Chain' (fun x y => y - x = b - a) (a :: b :: c :: t3) ∧ 0 < b - a
      then some (b - a) else Option.none) = some u
  rw [if_pos ⟨hchain, by rw [hba]; exact hu⟩, hba]

theorem second_positions (n : ℕ) (d0 u : ℚ) (hu : 0 < u)
    (firstD lastD tend : ℚ)
    (hfirst : firstD = d0) (hlast : lastD = d0 + ((n : ℚ) - 1) * u)
    (htend : tend = d0 + ((n : ℚ) - 1) * u)
    (idx : List ℕ) (hidx : ∀ i ∈ idx, i < n) :
    dateKnotPositions
        (filterKnotDates (idx.map (fun (i : ℕ) => d0 + i * u)) firstD lastD)
        d0 tend u
      = idx.map (fun (i : ℕ) => (1 + (i : ℚ)) / n) := by
  rw [hfirst, hlast, htend]
  have hu' : u ≠ 0 := ne_of_gt hu
  have hfilter : filterKnotDates (idx.map (fun (i : ℕ) => d0 + i * u)) d0
      (d0 + ((n : ℚ) - 1) * u) = idx.map (fun (i : ℕ) => d0 + i * u) := by
    unfold filterKnotDates
    rw [List.filter_eq_self]
    intro x hx
    rw [List.mem_map] at hx
    obtain ⟨i, hi, rfl⟩ := hx
    have hin : i < n := hidx i hi
    simp only [Bool.and_eq_true, decide_eq_true_eq]
    have hcast : (i : ℚ) + 1 ≤ n := by exact_mod_cast hin
    constructor
    · nlinarith
    · nlinarith [Nat.cast_nonneg (α := ℚ) i]
  rw [hfilter]
  unfold dateKnotPositions get_gap_between_dates
  rw [List.map_map]
  apply List.map_congr_left
  intro i hi
  have hin : i < n := hidx i hi
  simp only [Function.comp_apply]
  have e1 : (d0 + (i : ℚ) * u - d0) / u = (i : ℚ) := by
    field_simp
  have e2 : (d0 + ((n : ℚ) - 1) * u - d0) / u = (n : ℚ) - 1 := by
    field_simp
  rw [e1, e2, sub_add_cancel]
  ring

theorem set_kernel_matrix_static (st : ModelState) (df : DataFrame)
    (meta : TrainingMeta) (st' : ModelState)
    (hk : set_kernel_matrix st df meta = .ok st') :
    st'._seasonality = st._seasonality ∧
    st'._seasonality_fs_order = st._seasonality_fs_order ∧
    st'.num_of_regressors = st.num_of_regressors ∧
    st'.regressor_col = st.regressor_col ∧
    st'.knot_location = st.knot_location ∧
    st'.span_level = st.span_level ∧
    st'.span_coefficients = st.span_coefficients ∧
    st'.level_knot_length = st.level_knot_length ∧
    st'.coefficients_knot_length = st.coefficients_knot_length ∧
    st'.response_offset = st.response_offset ∧
    st'.is_valid_response = st.is_valid_response ∧
    st'.which_valid_response = st.which_valid_response ∧
    st'.num_of_valid_response = st.num_of_valid_response ∧
    st'.regressor_matrix = st.regressor_matrix := by
  unfold set_kernel_matrix at hk
  split at hk
  · exact absurd hk (by simp)
  · split at hk
    · split at hk
      · exact absurd hk (by simp)
      · simp only [Except.ok.injEq] at hk
        subst hk
        exact ⟨rfl, rfl, rfl, rfl, rfl, rfl, rfl, rfl, rfl, rfl, rfl, rfl, rfl,
          rfl⟩
    · simp only [Except.ok.injEq] at hk
      subst hk
      exact ⟨rfl, rfl, rfl, rfl, rfl, rfl, rfl, rfl, rfl, rfl, rfl, rfl, rfl,
        rfl⟩

theorem set_kernel_matrix_coef_inv (st : ModelState) (df : DataFrame)
    (meta : TrainingMeta) (st' : ModelState)
    (hk : set_kernel_matrix st df meta = .ok st') :
    (st.num_of_regressors = 0 ∧
      st'.kernel_coefficients = some (zerosM meta.num_of_observations 0) ∧
      st'.num_knots_coefficients = some 0 ∧
      st'.knots_tp_coefficients = st.knots_tp_coefficients) ∨
    (0 < st.num_of_regressors ∧ ∃ ctp cdates cidx,
      coefKnotsCompute st df meta = .ok (ctp, cdates, cidx) ∧
      st'.knots_tp_coefficients = some ctp ∧
      st'.kernel_coefficients
        = some (sandwich_kernel (tpVector meta.num_of_observations) ctp) ∧
      st'.num_knots_coefficients = some ctp.length) := by
  unfold set_kernel_matrix at hk
  split at hk
  · exact absurd hk (by simp)
  · split at hk
    · rename_i hpos
      split at hk
      · exact absurd hk (by simp)
      · rename_i res ctp cdates cidx hcoef
        simp only [Except.ok.injEq] at hk
        subst hk
        exact .inr ⟨hpos, ctp, cdates, cidx, hcoef, rfl, rfl, rfl⟩
    · rename_i hneg
      simp only [Except.ok.injEq] at hk
      subst hk
      exact .inl ⟨by omega, rfl, rfl, rfl⟩

theorem srm_av_valid (st : ModelState) (v : ValidateOut) (dfx : DataFrame)
    (meta : TrainingMeta) :
    (set_regressor_matrix (applyValidate st v) dfx meta).response_offset
        = v.response_offset ∧
    (set_regressor_matrix (applyValidate st v) dfx meta).is_valid_response
        = some v.is_valid_response ∧
    (set_regressor_matrix (applyValidate st v) dfx meta).which_valid_response
        = some v.which_valid_response ∧
    (set_regressor_matrix (applyValidate st v) dfx meta).num_of_valid_response
        = v.num_of_valid_response ∧
    (set_regressor_matrix (applyValidate st v) dfx meta).knots_tp_coefficients
        = st.knots_tp_coefficients ∧
    (set_regressor_matrix (applyValidate st v) dfx meta)._seasonality
        = st._seasonality ∧
    (set_regressor_matrix (applyValidate st v) dfx meta)._seasonality_fs_order
        = st._seasonality_fs_order ∧
    (set_regressor_matrix (applyValidate st v) dfx meta).knot_location
        = st.knot_location ∧
    (set_regressor_matrix (applyValidate st v) dfx meta).span_level
        = st.span_level ∧
    (set_regressor_matrix (applyValidate st v) dfx meta).level_knot_length
        = st.level_knot_length ∧
    (set_regressor_matrix (applyValidate st v) dfx meta).span_coefficients
        = st.span_coefficients ∧
    (set_regressor_matrix (applyValidate st v) dfx meta).coefficients_knot_length
        = st.coefficients_knot_length ∧
    (set_regressor_matrix (applyValidate st v) dfx meta).regressor_col
        = st.regressor_col := by
  unfold set_regressor_matrix applyValidate
  split <;> exact ⟨rfl, rfl, rfl, rfl, rfl, rfl, rfl, rfl, rfl, rfl, rfl, rfl,
    rfl⟩

theorem srm_regmat (st : ModelState) (v : ValidateOut) (dfx : DataFrame)
    (meta : TrainingMeta) :
    (set_regressor_matrix (applyValidate st v) dfx meta).regressor_matrix
      = if 0 < st.num_of_regressors then some (dfFilterValues dfx st.regressor_col)
        else some (zerosM meta.num_of_observations 0) := by
  by_cases hreg : 0 < st.num_of_regressors
  · rw [if_pos hreg]
    unfold set_regressor_matrix
    rw [if_pos (show (applyValidate st v).num_of_regressors > 0 by
      simpa [applyValidate] using hreg)]
    simp [applyValidate]
  · rw [if_neg hreg]
    unfold set_regressor_matrix
    rw [if_neg (show ¬ (applyValidate st v).num_of_regressors > 0 by
      simpa [applyValidate] using hreg)]

theorem coefKnotsCompute_congr (stA stB : ModelState) (df : DataFrame)
    (meta : TrainingMeta)
    (h1 : stB.coefficients_knot_length = stA.coefficients_knot_length)
    (h2 : stB.span_coefficients = stA.span_coefficients)
    (h3 : stB.knot_location = stA.knot_location) :
    coefKnotsCompute stB df meta = coefKnotsCompute stA df meta := by
  unfold coefKnotsCompute
  rw [h1, h2, h3]

theorem make_seasonal_congr (stA stB : ModelState) (df : DataFrame) (s : ℤ)
    (h1 : stB._seasonality = stA._seasonality)
    (h2 : stB._seasonality_fs_order = stA._seasonality_fs_order) :
    make_seasonal_regressors stB df s = make_seasonal_regressors stA df s := by
  unfold make_seasonal_regressors
  rw [h1, h2]

/-- C1 amended: rerunning the fit with the same inputs leaves the published
state identical PROVIDED the metadata is consistent with the table —
regularly spaced dates with positive step `u`, `training_start` the first
date, `training_end` the last date, and the frequency either supplied as `u`
or inferred from at least three dates.  Without explicit level knot dates
the second call does not rerun the span/length-based index rule: it reaches
the explicit-dates branch through the `_level_knot_dates` cached by the
first call, and only under this consistency do the calendar-gap positions
reproduce the index-based ones. -/
theorem claim_C1_amended (st : ModelState) (df : DataFrame)
    (meta : TrainingMeta) (d0 u : ℚ) (hu : 0 < u) (n : ℕ)
    (hdates : df.dates = (List.range n).map (fun (i : ℕ) => d0 + i * u))
    (hn : meta.num_of_observations = n)
    (hstart : meta.training_start = d0)
    (hend : meta.training_end = d0 + ((n : ℚ) - 1) * u)
    (hlkd : st._level_knot_dates = Option.none)
    (hfreq : st.date_freq = some u ∨ (st.date_freq = Option.none ∧ 3 ≤ n))
    (st1 : ModelState) (df1 : DataFrame)
    (h1 : set_dynamic_attributes st df meta = .ok (st1, df1))
    (st2 : ModelState) (df2 : DataFrame)
    (h2 : set_dynamic_attributes st1 df meta = .ok (st2, df2)) :
    published st2 = published st1 := by
  obtain ⟨v1, hv1, hdf1, hk1⟩ := set_dynamic_attributes_ok_inv st df meta st1 df1 h1
  obtain ⟨P1, P2, P3, P4⟩ := srm_av_fields st v1 df1 meta
  obtain ⟨Q1, Q2, Q3, Q4, Q5, Q6, Q7, Q8, Q9, Q10, Q11, Q12, Q13⟩ :=
    srm_av_valid st v1 df1 meta
  obtain ⟨ktp1, lkd1, idxlev1, dfreq1, hlev1, s1ktp, s1lkd, s1idx, s1freq,
    s1num, s1ker⟩ := set_kernel_matrix_level_inv _ df1 meta st1 hk1
  obtain ⟨dist, idx, dates1, hdist, hidx, hsel, hout1⟩ :=
    levelKnotsCompute_none_inv _ df1 meta _ (P1.trans hlkd) hlev1
  simp only [Prod.mk.injEq] at hout1
  obtain ⟨e_ktp1, e_lkd1, e_idx1, e_freq1⟩ := hout1
  rw [Q8] at hidx
  have hbound : ∀ i ∈ idx, i < n := by
    have hlt := set_knots_tp_lt _ _ _ _ hidx
    intro i hi
    have h' := hlt i hi
    omega
  have hdfdates1 : df1.dates = df.dates := by
    rw [hdf1]
    exact make_seasonal_regressors_dates st df 0
  have hsel' : dates1 = idx.map (fun (i : ℕ) => d0 + i * u) := by
    rw [hdfdates1, hdates] at hsel
    rw [indexSelect_map_range n _ idx hbound] at hsel
    exact (Except.ok.inj hsel).symm
  obtain ⟨K1a, K1b, K1c, K1d, K1e, K1f, K1g, K1h, K1i, K1j, K1k, K1l, K1m,
    K1n⟩ := set_kernel_matrix_static _ df1 meta st1 hk1
  have hseas1 : st1._seasonality = st._seasonality := K1a.trans Q6
  have hord1 : st1._seasonality_fs_order = st._seasonality_fs_order :=
    K1b.trans Q7
  have hnum1 : st1.num_of_regressors = st.num_of_regressors := K1c.trans P4
  have hcol1 : st1.regressor_col = st.regressor_col := K1d.trans Q13
  have hloc1 : st1.knot_location = st.knot_location := K1e.trans Q8
  have hspanc1 : st1.span_coefficients = st.span_coefficients := K1g.trans Q11
  have hckl1 : st1.coefficients_knot_length = st.coefficients_knot_length :=
    K1i.trans Q12
  have hcoef1 := set_kernel_matrix_coef_inv _ df1 meta st1 hk1
  -- ===== second fit =====
  obtain ⟨v2, hv2, hdf2, hk2⟩ :=
    set_dynamic_attributes_ok_inv st1 df meta st2 df2 h2
  rw [hseas1, hv1] at hv2
  have hv12 : v2 = v1 := (Except.ok.inj hv2).symm
  subst hv12
  have hdf21 : df1 = df2 := by
    rw [hdf2, hdf1]
    exact (make_seasonal_congr st st1 df 0 hseas1 hord1).symm
  subst hdf21
  obtain ⟨P1', P2', P3', P4'⟩ := srm_av_fields st1 v2 df1 meta
  obtain ⟨Q1', Q2', Q3', Q4', Q5', Q6', Q7', Q8', Q9', Q10', Q11', Q12',
    Q13'⟩ := srm_av_valid st1 v2 df1 meta
  obtain ⟨K2a, K2b, K2c, K2d, K2e, K2f, K2g, K2h, K2i, K2j, K2k, K2l, K2m,
    K2n⟩ := set_kernel_matrix_static _ df1 meta st2 hk2
  obtain ⟨ktp2, lkd2, idxlev2, dfreq2, hlev2, s2ktp, s2lkd, s2idx, s2freq,
    s2num, s2ker⟩ := set_kernel_matrix_level_inv _ df1 meta st2 hk2
  have hfreq1 : st1.date_freq = st.date_freq := by
    rw [s1freq, e_freq1]
    exact P2
  have hres : resolveFreq
      (set_regressor_matrix (applyValidate st1 v2) df1 meta).date_freq
      df1.dates = some u := by
    rw [P2', hfreq1]
    rcases hfreq with hf | ⟨hf, hn3⟩
    · rw [hf]
      rfl
    · rw [hf]
      show inferFreq df1.dates = some u
      rw [hdfdates1, hdates]
      exact inferFreq_arith n hn3 d0 u hu
  obtain ⟨f2, l2, hh2, hl2, hout2⟩ :=
    levelKnotsCompute_some_inv _ df1 meta _ dates1 u
      (by rw [P1', s1lkd, e_lkd1]) hres hlev2
  simp only [Prod.mk.injEq] at hout2
  obtain ⟨e_ktp2, e_lkd2, e_idx2, e_freq2⟩ := hout2
  have hn1 : 0 < n := by
    by_contra hcon
    have hzero : n = 0 := by omega
    subst hzero
    rw [hdfdates1, hdates] at hh2
    simp at hh2
  have hf2 : f2 = d0 + ((0 : ℕ) : ℚ) * u := by
    rw [hdfdates1, hdates] at hh2
    rw [headQ_map_range n hn1] at hh2
    exact (Option.some.inj hh2).symm
  have hl2' : l2 = d0 + (((n - 1 : ℕ)) : ℚ) * u := by
    rw [hdfdates1, hdates] at hl2
    rw [getLastQ_map_range n hn1] at hl2
    exact (Option.some.inj hl2).symm
  have hktp21 : ktp2 = ktp1 := by
    rw [e_ktp2, e_ktp1, hsel', hf2, hl2', hstart, hend, hn]
    exact second_positions n d0 u hu _ _ _ (by push_cast; ring)
      (by rw [Nat.cast_sub (by omega : 1 ≤ n)]; push_cast; ring) rfl idx hbound
  -- ===== assemble the published state =====
  unfold published
  simp only [Published.mk.injEq]
  refine ⟨?_, ?_, ?_, ?_, ?_, ?_, ?_, ?_, ?_, ?_, ?_⟩
  · rw [s2ktp, s1ktp, hktp21]
  · rw [s2num, s1num, hktp21]
  · rw [s2ker, s1ker, hktp21]
  · -- num_knots_coefficients
    have hcoef2 := set_kernel_matrix_coef_inv _ df1 meta st2 hk2
    rcases hcoef1 with ⟨hz1, hc1a, hc1b, hc1c⟩ |
        ⟨hp1, ctp1, cd1, ci1, hcc1, hc1a, hc1b, hc1c⟩ <;>
      rcases hcoef2 with ⟨hz2, hc2a, hc2b, hc2c⟩ |
        ⟨hp2, ctp2, cd2, ci2, hcc2, hc2a, hc2b, hc2c⟩
    · rw [hc2b, hc1b]
    · rw [P4] at hz1
      rw [P4', hnum1] at hp2
      omega
    · rw [P4] at hp1
      rw [P4', hnum1] at hz2
      omega
    · have hcong : coefKnotsCompute
          (set_regressor_matrix (applyValidate st1 v2) df1 meta) df1 meta
          = coefKnotsCompute
            (set_regressor_matrix (applyValidate st v2) df1 meta) df1 meta := by
        apply coefKnotsCompute_congr
        · rw [Q12', hckl1, Q12]
        · rw [Q11', hspanc1, Q11]
        · rw [Q8', hloc1, Q8]
      rw [hcong, hcc1] at hcc2
      have := Except.ok.inj hcc2
      simp only [Prod.mk.injEq] at this
      rw [hc2c, hc1c, this.1]
  · -- knots_tp_coefficients
    have hcoef2 := set_kernel_matrix_coef_inv _ df1 meta st2 hk2
    rcases hcoef1 with ⟨hz1, hc1a, hc1b, hc1c⟩ |
        ⟨hp1, ctp1, cd1, ci1, hcc1, hc1a, hc1b, hc1c⟩ <;>
      rcases hcoef2 with ⟨hz2, hc2a, hc2b, hc2c⟩ |
        ⟨hp2, ctp2, cd2, ci2, hcc2, hc2a, hc2b, hc2c⟩
    · exact hc2c.trans Q5'
    · rw [P4] at hz1
      rw [P4', hnum1] at hp2
      omega
    · rw [P4] at hp1
      rw [P4', hnum1] at hz2
      omega
    · have hcong : coefKnotsCompute
          (set_regressor_matrix (applyValidate st1 v2) df1 meta) df1 meta
          = coefKnotsCompute
            (set_regressor_matrix (applyValidate st v2) df1 meta) df1 meta := by
        apply coefKnotsCompute_congr
        · rw [Q12', hckl1, Q12]
        · rw [Q11', hspanc1, Q11]
        · rw [Q8', hloc1, Q8]
      rw [hcong, hcc1] at hcc2
      have := Except.ok.inj hcc2
      simp only [Prod.mk.injEq] at this
      rw [hc2a, hc1a, this.1]
  · -- kernel_coefficients
    have hcoef2 := set_kernel_matrix_coef_inv _ df1 meta st2 hk2
    rcases hcoef1 with ⟨hz1, hc1a, hc1b, hc1c⟩ |
        ⟨hp1, ctp1, cd1, ci1, hcc1, hc1a, hc1b, hc1c⟩ <;>
      rcases hcoef2 with ⟨hz2, hc2a, hc2b, hc2c⟩ |
        ⟨hp2, ctp2, cd2, ci2, hcc2, hc2a, hc2b, hc2c⟩
    · rw [hc2a, hc1a]
    · rw [P4] at hz1
      rw [P4', hnum1] at hp2
      omega
    · rw [P4] at hp1
      rw [P4', hnum1] at hz2
      omega
    · have hcong : coefKnotsCompute
          (set_regressor_matrix (applyValidate st1 v2) df1 meta) df1 meta
          = coefKnotsCompute
            (set_regressor_matrix (applyValidate st v2) df1 meta) df1 meta := by
        apply coefKnotsCompute_congr
        · rw [Q12', hckl1, Q12]
        · rw [Q11', hspanc1, Q11]
        · rw [Q8', hloc1, Q8]
      rw [hcong, hcc1] at hcc2
      have := Except.ok.inj hcc2
      simp only [Prod.mk.injEq] at this
      rw [hc2b, hc1b, this.1]
  · -- regressor_matrix
    rw [K2n, K1n, srm_regmat, srm_regmat, hnum1, hcol1]
  · rw [K2j, K1j, Q1', Q1]
  · rw [K2k, K1k, Q2', Q2]
  · rw [K2l, K1l, Q3', Q3]
  · rw [K2m, K1m, Q4', Q4]

/-- Metadata consistent with the observed dates (`training_end` is the last
observed date). -/
def fitmeta2 : TrainingMeta := ⟨[some 1, some 2, some 3], 3, 0, 2⟩

theorem fit1b_eval : set_dynamic_attributes fitSt0 fitdf fitmeta2
    = .ok (fitSt1, fitdf) := by
  norm_num [set_dynamic_attributes, set_validate_ktr_params, nanmean,
    validIndices, applyValidate, make_seasonal_regressors, set_regressor_matrix,
    set_kernel_matrix, levelKnotsCompute, derivedKnotDistance, set_knots_tp,
    arangeUp, knotsIdxStart, ceilDiv, indexSelect, exceptMapList,
    fitSt0, fitSt1, fitdf, fitmeta2, List.range_succ, List.enum, List.enumFrom,
    List.filterMap_cons, List.foldl_cons, List.foldl_nil, id_eq]

/-- The state after the second consistent fit: identical published state,
only the inferred `date_freq` is newly stored. -/
def fitSt2b : ModelState := { fitSt1 with date_freq := some 1 }

theorem fit2b_eval : set_dynamic_attributes fitSt1 fitdf fitmeta2
    = .ok (fitSt2b, fitdf) := by
  norm_num [set_dynamic_attributes, set_validate_ktr_params, nanmean,
    validIndices, applyValidate, make_seasonal_regressors, set_regressor_matrix,
    set_kernel_matrix, levelKnotsCompute, filterKnotDates, dateKnotPositions,
    get_gap_between_dates, resolveFreq, inferFreq, List.chain'_cons,
    List.chain'_singleton, List.filter_cons, List.filter_nil, Bool.and_eq_true,
    decide_eq_true_eq, fitSt0, fitSt1, fitSt2b, fitdf, fitmeta2,
    List.range_succ, List.enum, List.enumFrom, List.filterMap_cons,
    List.foldl_cons, List.foldl_nil, id_eq]

theorem claim_C1_witness : published fitSt2b = published fitSt1 :=
  claim_C1_amended fitSt0 fitdf fitmeta2 0 1 (by norm_num) 3
    (by norm_num [fitdf, List.range_succ]) rfl rfl
    (by norm_num [fitmeta2]) rfl (Or.inr ⟨rfl, by norm_num⟩)
    fitSt1 fitdf fit1b_eval fitSt2b fitdf fit2b_eval

end KTRLite
